import Mathlib

/-!
Verification of the declarative form-validation rule engine of
`scripts/form-validation.js` (the ThermoCool landing page repository).

JavaScript strings are modelled as lists of Unicode code points
(`List Nat`).  The JavaScript `String.prototype.length` property counts
UTF-16 code units, so it is modelled by `jsLen`, which counts code points
below `0x10000` once and code points at or above `0x10000` (surrogate
pairs) twice.  Every place the source reads `.length` the embedding uses
`jsLen`; `List.length` is the code-point count.

Regular expressions of the source are translated into executable Lean
decision procedures; each procedure's doc comment names the regex it
embeds.
-/

set_option maxRecDepth 20000

/-- The scalar values of a Lean string literal, used to write the string
constants of the source (field names, error messages) as `List Nat`. -/
def cp (s : String) : List Nat := s.toList.map Char.toNat

/-- The character class matched by the JavaScript regex `\s` (and removed
at the ends by `String.prototype.trim`): tab, LF, VT, FF, CR, space,
NBSP, Ogham space, the `U+2000`–`U+200A` range, LS, PS, NNBSP, MMSP,
ideographic space and the BOM. -/
def isWs (c : Nat) : Bool :=
  c == 9 || c == 10 || c == 11 || c == 12 || c == 13 || c == 32 ||
  c == 160 || c == 5760 || (8192 ≤ c && c ≤ 8202) || c == 8232 ||
  c == 8233 || c == 8239 || c == 8287 || c == 12288 || c == 65279

/-- Canonicalization of the source's case-insensitive regexes: they use
the `i` flag without the `u` flag, where `Canonicalize` folds a
character through `toUpperCase` and discards any non-ASCII-to-ASCII
result, so a pattern's ASCII letter matches exactly its two ASCII case
forms; folding both sides through this ASCII map is therefore exact for
the engine's ASCII-letter patterns (`http`, `<script`, the spam
keywords). -/
def lowerAscii (c : Nat) : Nat :=
  if 65 ≤ c && c ≤ 90 then c + 32 else c

/-- ASCII fragment of `String.prototype.toUpperCase`, used by
`formatFieldName`'s fallback branch. -/
def upperAscii (c : Nat) : Nat :=
  if 97 ≤ c && c ≤ 122 then c - 32 else c

/-- JavaScript `String.prototype.length`: the UTF-16 code-unit count.
A code point below `0x10000` is one unit, any other is a surrogate
pair. -/
def jsLen (s : List Nat) : Nat := (s.map fun c => if c < 65536 then 1 else 2).sum

/-- Leading-whitespace removal (front half of `String.prototype.trim`). -/
def dropWs : List Nat → List Nat
  | [] => []
  | c :: rest => if isWs c then dropWs rest else c :: rest

/-- Trailing-whitespace removal (back half of `String.prototype.trim`). -/
def trimRight : List Nat → List Nat
  | [] => []
  | c :: rest =>
    let r := trimRight rest
    if r.isEmpty && isWs c then [] else c :: r

/-- `String.prototype.trim`: removes leading and trailing `isWs`
characters. -/
def trim (s : List Nat) : List Nat := trimRight (dropWs s)

/-- `value.replace(/\s+/g, ' ')`: every maximal run of whitespace
characters becomes a single space.  The flag records whether the previous
character belonged to a whitespace run. -/
def collapseWsAux : Bool → List Nat → List Nat
  | _, [] => []
  | prevWs, c :: rest =>
    if isWs c then
      (if prevWs then [] else [32]) ++ collapseWsAux true rest
    else c :: collapseWsAux false rest

/-- `value.replace(/\s+/g, ' ')` applied to a whole string. -/
def collapseWs (s : List Nat) : List Nat := collapseWsAux false s

/-- Binary search tree carrying, at each node, a code point and the code
points of its Unicode full lowercase mapping. -/
inductive LTree where
  | nil : LTree
  | node : LTree → Nat → List Nat → LTree → LTree

/-- Tree lookup: strictly smaller keys to the left, strictly larger to
the right, the stored expansion on equality. -/
def LTree.find : LTree → Nat → Option (List Nat)
  | .nil, _ => none
  | .node l k e r, c => if c < k then l.find c else if k < c then r.find c else some e

/-- A predicate holds at every node of the tree. -/
def LTree.All (p : Nat → List Nat → Bool) : LTree → Bool
  | .nil => true
  | .node l k e r => p k e && l.All p && r.All p

/-- Binary search tree of disjoint, ascending code-point ranges. -/
inductive RTree where
  | nil : RTree
  | node : RTree → Nat → Nat → RTree → RTree

/-- Range membership: below the low bound to the left, above the high
bound to the right, inside otherwise. -/
def RTree.mem : RTree → Nat → Bool
  | .nil, _ => false
  | .node l lo hi r, c => if c < lo then l.mem c else if hi < c then r.mem c else true

/-- The Unicode full lowercase mappings (UnicodeData plus SpecialCasing,
Unicode 14.0.0): every code point whose lowercase image differs from
itself, with that image — except `U+03A3`, whose image is
context-dependent and produced by `sigmaLower` instead.  The only
multi-code-point image is `U+0130 → 0069 0307`. -/
def lowerTree : LTree :=
  (.node (.node (.node (.node (.node (.node (.node (.node (.node (.node (.node .nil 65 [97] .nil) 66 [98] .nil) 67 [99] (.node (.node .nil 68 [100] .nil) 69 [101] .nil)) 70 [102] (.node (.node (.node .nil 71 [103] .nil) 72 [104] .nil) 73 [105] (.node (.node .nil 74 [106] .nil) 75 [107] .nil))) 76 [108] (.node (.node (.node (.node .nil 77 [109] .nil) 78 [110] .nil) 79 [111] (.node (.node .nil 80 [112] .nil) 81 [113] .nil)) 82 [114] (.node (.node (.node .nil 83 [115] .nil) 84 [116] .nil) 85 [117] (.node .nil 86 [118] .nil)))) 87 [119] (.node (.node (.node (.node (.node .nil 88 [120] .nil) 89 [121] .nil) 90 [122] (.node (.node .nil 192 [224] .nil) 193 [225] .nil)) 194 [226] (.node (.node (.node .nil 195 [227] .nil) 196 [228] .nil) 197 [229] (.node .nil 198 [230] .nil))) 199 [231] (.node (.node (.node (.node .nil 200 [232] .nil) 201 [233] .nil) 202 [234] (.node (.node .nil 203 [235] .nil) 204 [236] .nil)) 205 [237] (.node (.node (.node .nil 206 [238] .nil) 207 [239] .nil) 208 [240] (.node .nil 209 [241] .nil))))) 210 [242] (.node (.node (.node (.node (.node (.node .nil 211 [243] .nil) 212 [244] .nil) 213 [245] (.node (.node .nil 214 [246] .nil) 216 [248] .nil)) 217 [249] (.node (.node (.node .nil 218 [250] .nil) 219 [251] .nil) 220 [252] (.node (.node .nil 221 [253] .nil) 222 [254] .nil))) 256 [257] (.node (.node (.node (.node .nil 258 [259] .nil) 260 [261] .nil) 262 [263] (.node (.node .nil 264 [265] .nil) 266 [267] .nil)) 268 [269] (.node (.node (.node .nil 270 [271] .nil) 272 [273] .nil) 274 [275] (.node .nil 276 [277] .nil)))) 278 [279] (.node (.node (.node (.node (.node .nil 280 [281] .nil) 282 [283] .nil) 284 [285] (.node (.node .nil 286 [287] .nil) 288 [289] .nil)) 290 [291] (.node (.node (.node .nil 292 [293] .nil) 294 [295] .nil) 296 [297] (.node .nil 298 [299] .nil))) 300 [301] (.node (.node (.node (.node .nil 302 [303] .nil) 304 [105,775] .nil) 306 [307] (.node (.node .nil 308 [309] .nil) 310 [311] .nil)) 313 [314] (.node (.node (.node .nil 315 [316] .nil) 317 [318] .nil) 319 [320] (.node .nil 321 [322] .nil)))))) 323 [324] (.node (.node (.node (.node (.node (.node (.node .nil 325 [326] .nil) 327 [328] .nil) 330 [331] (.node (.node .nil 332 [333] .nil) 334 [335] .nil)) 336 [337] (.node (.node (.node .nil 338 [339] .nil) 340 [341] .nil) 342 [343] (.node (.node .nil 344 [345] .nil) 346 [347] .nil))) 348 [349] (.node (.node (.node (.node .nil 350 [351] .nil) 352 [353] .nil) 354 [355] (.node (.node .nil 356 [357] .nil) 358 [359] .nil)) 360 [361] (.node (.node (.node .nil 362 [363] .nil) 364 [365] .nil) 366 [367] (.node .nil 368 [369] .nil)))) 370 [371] (.node (.node (.node (.node (.node .nil 372 [373] .nil) 374 [375] .nil) 376 [255] (.node (.node .nil 377 [378] .nil) 379 [380] .nil)) 381 [382] (.node (.node (.node .nil 385 [595] .nil) 386 [387] .nil) 388 [389] (.node .nil 390 [596] .nil))) 391 [392] (.node (.node (.node (.node .nil 393 [598] .nil) 394 [599] .nil) 395 [396] (.node (.node .nil 398 [477] .nil) 399 [601] .nil)) 400 [603] (.node (.node (.node .nil 401 [402] .nil) 403 [608] .nil) 404 [611] (.node .nil 406 [617] .nil))))) 407 [616] (.node (.node (.node (.node (.node (.node .nil 408 [409] .nil) 412 [623] .nil) 413 [626] (.node (.node .nil 415 [629] .nil) 416 [417] .nil)) 418 [419] (.node (.node (.node .nil 420 [421] .nil) 422 [640] .nil) 423 [424] (.node (.node .nil 425 [643] .nil) 428 [429] .nil))) 430 [648] (.node (.node (.node (.node .nil 431 [432] .nil) 433 [650] .nil) 434 [651] (.node (.node .nil 435 [436] .nil) 437 [438] .nil)) 439 [658] (.node (.node (.node .nil 440 [441] .nil) 444 [445] .nil) 452 [454] (.node .nil 453 [454] .nil)))) 455 [457] (.node (.node (.node (.node (.node .nil 456 [457] .nil) 458 [460] .nil) 459 [460] (.node (.node .nil 461 [462] .nil) 463 [464] .nil)) 465 [466] (.node (.node (.node .nil 467 [468] .nil) 469 [470] .nil) 471 [472] (.node .nil 473 [474] .nil))) 475 [476] (.node (.node (.node (.node .nil 478 [479] .nil) 480 [481] .nil) 482 [483] (.node (.node .nil 484 [485] .nil) 486 [487] .nil)) 488 [489] (.node (.node (.node .nil 490 [491] .nil) 492 [493] .nil) 494 [495] (.node .nil 497 [499] .nil))))))) 498 [499] (.node (.node (.node (.node (.node (.node (.node (.node .nil 500 [501] .nil) 502 [405] .nil) 503 [447] (.node (.node .nil 504 [505] .nil) 506 [507] .nil)) 508 [509] (.node (.node (.node .nil 510 [511] .nil) 512 [513] .nil) 514 [515] (.node (.node .nil 516 [517] .nil) 518 [519] .nil))) 520 [521] (.node (.node (.node (.node .nil 522 [523] .nil) 524 [525] .nil) 526 [527] (.node (.node .nil 528 [529] .nil) 530 [531] .nil)) 532 [533] (.node (.node (.node .nil 534 [535] .nil) 536 [537] .nil) 538 [539] (.node .nil 540 [541] .nil)))) 542 [543] (.node (.node (.node (.node (.node .nil 544 [414] .nil) 546 [547] .nil) 548 [549] (.node (.node .nil 550 [551] .nil) 552 [553] .nil)) 554 [555] (.node (.node (.node .nil 556 [557] .nil) 558 [559] .nil) 560 [561] (.node .nil 562 [563] .nil))) 570 [11365] (.node (.node (.node (.node .nil 571 [572] .nil) 573 [410] .nil) 574 [11366] (.node (.node .nil 577 [578] .nil) 579 [384] .nil)) 580 [649] (.node (.node (.node .nil 581 [652] .nil) 582 [583] .nil) 584 [585] (.node .nil 586 [587] .nil))))) 588 [589] (.node (.node (.node (.node (.node (.node .nil 590 [591] .nil) 880 [881] .nil) 882 [883] (.node (.node .nil 886 [887] .nil) 895 [1011] .nil)) 902 [940] (.node (.node (.node .nil 904 [941] .nil) 905 [942] .nil) 906 [943] (.node (.node .nil 908 [972] .nil) 910 [973] .nil))) 911 [974] (.node (.node (.node (.node .nil 913 [945] .nil) 914 [946] .nil) 915 [947] (.node (.node .nil 916 [948] .nil) 917 [949] .nil)) 918 [950] (.node (.node (.node .nil 919 [951] .nil) 920 [952] .nil) 921 [953] (.node .nil 922 [954] .nil)))) 923 [955] (.node (.node (.node (.node (.node .nil 924 [956] .nil) 925 [957] .nil) 926 [958] (.node (.node .nil 927 [959] .nil) 928 [960] .nil)) 929 [961] (.node (.node (.node .nil 932 [964] .nil) 933 [965] .nil) 934 [966] (.node .nil 935 [967] .nil))) 936 [968] (.node (.node (.node (.node .nil 937 [969] .nil) 938 [970] .nil) 939 [971] (.node (.node .nil 975 [983] .nil) 984 [985] .nil)) 986 [987] (.node (.node (.node .nil 988 [989] .nil) 990 [991] .nil) 992 [993] (.node .nil 994 [995] .nil)))))) 996 [997] (.node (.node (.node (.node (.node (.node (.node .nil 998 [999] .nil) 1000 [1001] .nil) 1002 [1003] (.node (.node .nil 1004 [1005] .nil) 1006 [1007] .nil)) 1012 [952] (.node (.node (.node .nil 1015 [1016] .nil) 1017 [1010] .nil) 1018 [1019] (.node (.node .nil 1021 [891] .nil) 1022 [892] .nil))) 1023 [893] (.node (.node (.node (.node .nil 1024 [1104] .nil) 1025 [1105] .nil) 1026 [1106] (.node (.node .nil 1027 [1107] .nil) 1028 [1108] .nil)) 1029 [1109] (.node (.node (.node .nil 1030 [1110] .nil) 1031 [1111] .nil) 1032 [1112] (.node .nil 1033 [1113] .nil)))) 1034 [1114] (.node (.node (.node (.node (.node .nil 1035 [1115] .nil) 1036 [1116] .nil) 1037 [1117] (.node (.node .nil 1038 [1118] .nil) 1039 [1119] .nil)) 1040 [1072] (.node (.node (.node .nil 1041 [1073] .nil) 1042 [1074] .nil) 1043 [1075] (.node .nil 1044 [1076] .nil))) 1045 [1077] (.node (.node (.node (.node .nil 1046 [1078] .nil) 1047 [1079] .nil) 1048 [1080] (.node (.node .nil 1049 [1081] .nil) 1050 [1082] .nil)) 1051 [1083] (.node (.node (.node .nil 1052 [1084] .nil) 1053 [1085] .nil) 1054 [1086] (.node .nil 1055 [1087] .nil))))) 1056 [1088] (.node (.node (.node (.node (.node (.node .nil 1057 [1089] .nil) 1058 [1090] .nil) 1059 [1091] (.node (.node .nil 1060 [1092] .nil) 1061 [1093] .nil)) 1062 [1094] (.node (.node (.node .nil 1063 [1095] .nil) 1064 [1096] .nil) 1065 [1097] (.node .nil 1066 [1098] .nil))) 1067 [1099] (.node (.node (.node (.node .nil 1068 [1100] .nil) 1069 [1101] .nil) 1070 [1102] (.node (.node .nil 1071 [1103] .nil) 1120 [1121] .nil)) 1122 [1123] (.node (.node (.node .nil 1124 [1125] .nil) 1126 [1127] .nil) 1128 [1129] (.node .nil 1130 [1131] .nil)))) 1132 [1133] (.node (.node (.node (.node (.node .nil 1134 [1135] .nil) 1136 [1137] .nil) 1138 [1139] (.node (.node .nil 1140 [1141] .nil) 1142 [1143] .nil)) 1144 [1145] (.node (.node (.node .nil 1146 [1147] .nil) 1148 [1149] .nil) 1150 [1151] (.node .nil 1152 [1153] .nil))) 1162 [1163] (.node (.node (.node (.node .nil 1164 [1165] .nil) 1166 [1167] .nil) 1168 [1169] (.node (.node .nil 1170 [1171] .nil) 1172 [1173] .nil)) 1174 [1175] (.node (.node (.node .nil 1176 [1177] .nil) 1178 [1179] .nil) 1180 [1181] (.node .nil 1182 [1183] .nil)))))))) 1184 [1185] (.node (.node (.node (.node (.node (.node (.node (.node (.node .nil 1186 [1187] .nil) 1188 [1189] .nil) 1190 [1191] (.node (.node .nil 1192 [1193] .nil) 1194 [1195] .nil)) 1196 [1197] (.node (.node (.node .nil 1198 [1199] .nil) 1200 [1201] .nil) 1202 [1203] (.node (.node .nil 1204 [1205] .nil) 1206 [1207] .nil))) 1208 [1209] (.node (.node (.node (.node .nil 1210 [1211] .nil) 1212 [1213] .nil) 1214 [1215] (.node (.node .nil 1216 [1231] .nil) 1217 [1218] .nil)) 1219 [1220] (.node (.node (.node .nil 1221 [1222] .nil) 1223 [1224] .nil) 1225 [1226] (.node .nil 1227 [1228] .nil)))) 1229 [1230] (.node (.node (.node (.node (.node .nil 1232 [1233] .nil) 1234 [1235] .nil) 1236 [1237] (.node (.node .nil 1238 [1239] .nil) 1240 [1241] .nil)) 1242 [1243] (.node (.node (.node .nil 1244 [1245] .nil) 1246 [1247] .nil) 1248 [1249] (.node .nil 1250 [1251] .nil))) 1252 [1253] (.node (.node (.node (.node .nil 1254 [1255] .nil) 1256 [1257] .nil) 1258 [1259] (.node (.node .nil 1260 [1261] .nil) 1262 [1263] .nil)) 1264 [1265] (.node (.node (.node .nil 1266 [1267] .nil) 1268 [1269] .nil) 1270 [1271] (.node .nil 1272 [1273] .nil))))) 1274 [1275] (.node (.node (.node (.node (.node (.node .nil 1276 [1277] .nil) 1278 [1279] .nil) 1280 [1281] (.node (.node .nil 1282 [1283] .nil) 1284 [1285] .nil)) 1286 [1287] (.node (.node (.node .nil 1288 [1289] .nil) 1290 [1291] .nil) 1292 [1293] (.node (.node .nil 1294 [1295] .nil) 1296 [1297] .nil))) 1298 [1299] (.node (.node (.node (.node .nil 1300 [1301] .nil) 1302 [1303] .nil) 1304 [1305] (.node (.node .nil 1306 [1307] .nil) 1308 [1309] .nil)) 1310 [1311] (.node (.node (.node .nil 1312 [1313] .nil) 1314 [1315] .nil) 1316 [1317] (.node .nil 1318 [1319] .nil)))) 1320 [1321] (.node (.node (.node (.node (.node .nil 1322 [1323] .nil) 1324 [1325] .nil) 1326 [1327] (.node (.node .nil 1329 [1377] .nil) 1330 [1378] .nil)) 1331 [1379] (.node (.node (.node .nil 1332 [1380] .nil) 1333 [1381] .nil) 1334 [1382] (.node .nil 1335 [1383] .nil))) 1336 [1384] (.node (.node (.node (.node .nil 1337 [1385] .nil) 1338 [1386] .nil) 1339 [1387] (.node (.node .nil 1340 [1388] .nil) 1341 [1389] .nil)) 1342 [1390] (.node (.node (.node .nil 1343 [1391] .nil) 1344 [1392] .nil) 1345 [1393] (.node .nil 1346 [1394] .nil)))))) 1347 [1395] (.node (.node (.node (.node (.node (.node (.node .nil 1348 [1396] .nil) 1349 [1397] .nil) 1350 [1398] (.node (.node .nil 1351 [1399] .nil) 1352 [1400] .nil)) 1353 [1401] (.node (.node (.node .nil 1354 [1402] .nil) 1355 [1403] .nil) 1356 [1404] (.node (.node .nil 1357 [1405] .nil) 1358 [1406] .nil))) 1359 [1407] (.node (.node (.node (.node .nil 1360 [1408] .nil) 1361 [1409] .nil) 1362 [1410] (.node (.node .nil 1363 [1411] .nil) 1364 [1412] .nil)) 1365 [1413] (.node (.node (.node .nil 1366 [1414] .nil) 4256 [11520] .nil) 4257 [11521] (.node .nil 4258 [11522] .nil)))) 4259 [11523] (.node (.node (.node (.node (.node .nil 4260 [11524] .nil) 4261 [11525] .nil) 4262 [11526] (.node (.node .nil 4263 [11527] .nil) 4264 [11528] .nil)) 4265 [11529] (.node (.node (.node .nil 4266 [11530] .nil) 4267 [11531] .nil) 4268 [11532] (.node .nil 4269 [11533] .nil))) 4270 [11534] (.node (.node (.node (.node .nil 4271 [11535] .nil) 4272 [11536] .nil) 4273 [11537] (.node (.node .nil 4274 [11538] .nil) 4275 [11539] .nil)) 4276 [11540] (.node (.node (.node .nil 4277 [11541] .nil) 4278 [11542] .nil) 4279 [11543] (.node .nil 4280 [11544] .nil))))) 4281 [11545] (.node (.node (.node (.node (.node (.node .nil 4282 [11546] .nil) 4283 [11547] .nil) 4284 [11548] (.node (.node .nil 4285 [11549] .nil) 4286 [11550] .nil)) 4287 [11551] (.node (.node (.node .nil 4288 [11552] .nil) 4289 [11553] .nil) 4290 [11554] (.node .nil 4291 [11555] .nil))) 4292 [11556] (.node (.node (.node (.node .nil 4293 [11557] .nil) 4295 [11559] .nil) 4301 [11565] (.node (.node .nil 5024 [43888] .nil) 5025 [43889] .nil)) 5026 [43890] (.node (.node (.node .nil 5027 [43891] .nil) 5028 [43892] .nil) 5029 [43893] (.node .nil 5030 [43894] .nil)))) 5031 [43895] (.node (.node (.node (.node (.node .nil 5032 [43896] .nil) 5033 [43897] .nil) 5034 [43898] (.node (.node .nil 5035 [43899] .nil) 5036 [43900] .nil)) 5037 [43901] (.node (.node (.node .nil 5038 [43902] .nil) 5039 [43903] .nil) 5040 [43904] (.node .nil 5041 [43905] .nil))) 5042 [43906] (.node (.node (.node (.node .nil 5043 [43907] .nil) 5044 [43908] .nil) 5045 [43909] (.node (.node .nil 5046 [43910] .nil) 5047 [43911] .nil)) 5048 [43912] (.node (.node (.node .nil 5049 [43913] .nil) 5050 [43914] .nil) 5051 [43915] (.node .nil 5052 [43916] .nil))))))) 5053 [43917] (.node (.node (.node (.node (.node (.node (.node (.node .nil 5054 [43918] .nil) 5055 [43919] .nil) 5056 [43920] (.node (.node .nil 5057 [43921] .nil) 5058 [43922] .nil)) 5059 [43923] (.node (.node (.node .nil 5060 [43924] .nil) 5061 [43925] .nil) 5062 [43926] (.node (.node .nil 5063 [43927] .nil) 5064 [43928] .nil))) 5065 [43929] (.node (.node (.node (.node .nil 5066 [43930] .nil) 5067 [43931] .nil) 5068 [43932] (.node (.node .nil 5069 [43933] .nil) 5070 [43934] .nil)) 5071 [43935] (.node (.node (.node .nil 5072 [43936] .nil) 5073 [43937] .nil) 5074 [43938] (.node .nil 5075 [43939] .nil)))) 5076 [43940] (.node (.node (.node (.node (.node .nil 5077 [43941] .nil) 5078 [43942] .nil) 5079 [43943] (.node (.node .nil 5080 [43944] .nil) 5081 [43945] .nil)) 5082 [43946] (.node (.node (.node .nil 5083 [43947] .nil) 5084 [43948] .nil) 5085 [43949] (.node .nil 5086 [43950] .nil))) 5087 [43951] (.node (.node (.node (.node .nil 5088 [43952] .nil) 5089 [43953] .nil) 5090 [43954] (.node (.node .nil 5091 [43955] .nil) 5092 [43956] .nil)) 5093 [43957] (.node (.node (.node .nil 5094 [43958] .nil) 5095 [43959] .nil) 5096 [43960] (.node .nil 5097 [43961] .nil))))) 5098 [43962] (.node (.node (.node (.node (.node (.node .nil 5099 [43963] .nil) 5100 [43964] .nil) 5101 [43965] (.node (.node .nil 5102 [43966] .nil) 5103 [43967] .nil)) 5104 [5112] (.node (.node (.node .nil 5105 [5113] .nil) 5106 [5114] .nil) 5107 [5115] (.node (.node .nil 5108 [5116] .nil) 5109 [5117] .nil))) 7312 [4304] (.node (.node (.node (.node .nil 7313 [4305] .nil) 7314 [4306] .nil) 7315 [4307] (.node (.node .nil 7316 [4308] .nil) 7317 [4309] .nil)) 7318 [4310] (.node (.node (.node .nil 7319 [4311] .nil) 7320 [4312] .nil) 7321 [4313] (.node .nil 7322 [4314] .nil)))) 7323 [4315] (.node (.node (.node (.node (.node .nil 7324 [4316] .nil) 7325 [4317] .nil) 7326 [4318] (.node (.node .nil 7327 [4319] .nil) 7328 [4320] .nil)) 7329 [4321] (.node (.node (.node .nil 7330 [4322] .nil) 7331 [4323] .nil) 7332 [4324] (.node .nil 7333 [4325] .nil))) 7334 [4326] (.node (.node (.node (.node .nil 7335 [4327] .nil) 7336 [4328] .nil) 7337 [4329] (.node (.node .nil 7338 [4330] .nil) 7339 [4331] .nil)) 7340 [4332] (.node (.node (.node .nil 7341 [4333] .nil) 7342 [4334] .nil) 7343 [4335] (.node .nil 7344 [4336] .nil)))))) 7345 [4337] (.node (.node (.node (.node (.node (.node (.node .nil 7346 [4338] .nil) 7347 [4339] .nil) 7348 [4340] (.node (.node .nil 7349 [4341] .nil) 7350 [4342] .nil)) 7351 [4343] (.node (.node (.node .nil 7352 [4344] .nil) 7353 [4345] .nil) 7354 [4346] (.node (.node .nil 7357 [4349] .nil) 7358 [4350] .nil))) 7359 [4351] (.node (.node (.node (.node .nil 7680 [7681] .nil) 7682 [7683] .nil) 7684 [7685] (.node (.node .nil 7686 [7687] .nil) 7688 [7689] .nil)) 7690 [7691] (.node (.node (.node .nil 7692 [7693] .nil) 7694 [7695] .nil) 7696 [7697] (.node .nil 7698 [7699] .nil)))) 7700 [7701] (.node (.node (.node (.node (.node .nil 7702 [7703] .nil) 7704 [7705] .nil) 7706 [7707] (.node (.node .nil 7708 [7709] .nil) 7710 [7711] .nil)) 7712 [7713] (.node (.node (.node .nil 7714 [7715] .nil) 7716 [7717] .nil) 7718 [7719] (.node .nil 7720 [7721] .nil))) 7722 [7723] (.node (.node (.node (.node .nil 7724 [7725] .nil) 7726 [7727] .nil) 7728 [7729] (.node (.node .nil 7730 [7731] .nil) 7732 [7733] .nil)) 7734 [7735] (.node (.node (.node .nil 7736 [7737] .nil) 7738 [7739] .nil) 7740 [7741] (.node .nil 7742 [7743] .nil))))) 7744 [7745] (.node (.node (.node (.node (.node (.node .nil 7746 [7747] .nil) 7748 [7749] .nil) 7750 [7751] (.node (.node .nil 7752 [7753] .nil) 7754 [7755] .nil)) 7756 [7757] (.node (.node (.node .nil 7758 [7759] .nil) 7760 [7761] .nil) 7762 [7763] (.node .nil 7764 [7765] .nil))) 7766 [7767] (.node (.node (.node (.node .nil 7768 [7769] .nil) 7770 [7771] .nil) 7772 [7773] (.node (.node .nil 7774 [7775] .nil) 7776 [7777] .nil)) 7778 [7779] (.node (.node (.node .nil 7780 [7781] .nil) 7782 [7783] .nil) 7784 [7785] (.node .nil 7786 [7787] .nil)))) 7788 [7789] (.node (.node (.node (.node (.node .nil 7790 [7791] .nil) 7792 [7793] .nil) 7794 [7795] (.node (.node .nil 7796 [7797] .nil) 7798 [7799] .nil)) 7800 [7801] (.node (.node (.node .nil 7802 [7803] .nil) 7804 [7805] .nil) 7806 [7807] (.node .nil 7808 [7809] .nil))) 7810 [7811] (.node (.node (.node (.node .nil 7812 [7813] .nil) 7814 [7815] .nil) 7816 [7817] (.node (.node .nil 7818 [7819] .nil) 7820 [7821] .nil)) 7822 [7823] (.node (.node (.node .nil 7824 [7825] .nil) 7826 [7827] .nil) 7828 [7829] (.node .nil 7838 [223] .nil))))))))) 7840 [7841] (.node (.node (.node (.node (.node (.node (.node (.node (.node (.node .nil 7842 [7843] .nil) 7844 [7845] .nil) 7846 [7847] (.node (.node .nil 7848 [7849] .nil) 7850 [7851] .nil)) 7852 [7853] (.node (.node (.node .nil 7854 [7855] .nil) 7856 [7857] .nil) 7858 [7859] (.node (.node .nil 7860 [7861] .nil) 7862 [7863] .nil))) 7864 [7865] (.node (.node (.node (.node .nil 7866 [7867] .nil) 7868 [7869] .nil) 7870 [7871] (.node (.node .nil 7872 [7873] .nil) 7874 [7875] .nil)) 7876 [7877] (.node (.node (.node .nil 7878 [7879] .nil) 7880 [7881] .nil) 7882 [7883] (.node .nil 7884 [7885] .nil)))) 7886 [7887] (.node (.node (.node (.node (.node .nil 7888 [7889] .nil) 7890 [7891] .nil) 7892 [7893] (.node (.node .nil 7894 [7895] .nil) 7896 [7897] .nil)) 7898 [7899] (.node (.node (.node .nil 7900 [7901] .nil) 7902 [7903] .nil) 7904 [7905] (.node .nil 7906 [7907] .nil))) 7908 [7909] (.node (.node (.node (.node .nil 7910 [7911] .nil) 7912 [7913] .nil) 7914 [7915] (.node (.node .nil 7916 [7917] .nil) 7918 [7919] .nil)) 7920 [7921] (.node (.node (.node .nil 7922 [7923] .nil) 7924 [7925] .nil) 7926 [7927] (.node .nil 7928 [7929] .nil))))) 7930 [7931] (.node (.node (.node (.node (.node (.node .nil 7932 [7933] .nil) 7934 [7935] .nil) 7944 [7936] (.node (.node .nil 7945 [7937] .nil) 7946 [7938] .nil)) 7947 [7939] (.node (.node (.node .nil 7948 [7940] .nil) 7949 [7941] .nil) 7950 [7942] (.node (.node .nil 7951 [7943] .nil) 7960 [7952] .nil))) 7961 [7953] (.node (.node (.node (.node .nil 7962 [7954] .nil) 7963 [7955] .nil) 7964 [7956] (.node (.node .nil 7965 [7957] .nil) 7976 [7968] .nil)) 7977 [7969] (.node (.node (.node .nil 7978 [7970] .nil) 7979 [7971] .nil) 7980 [7972] (.node .nil 7981 [7973] .nil)))) 7982 [7974] (.node (.node (.node (.node (.node .nil 7983 [7975] .nil) 7992 [7984] .nil) 7993 [7985] (.node (.node .nil 7994 [7986] .nil) 7995 [7987] .nil)) 7996 [7988] (.node (.node (.node .nil 7997 [7989] .nil) 7998 [7990] .nil) 7999 [7991] (.node .nil 8008 [8000] .nil))) 8009 [8001] (.node (.node (.node (.node .nil 8010 [8002] .nil) 8011 [8003] .nil) 8012 [8004] (.node (.node .nil 8013 [8005] .nil) 8025 [8017] .nil)) 8027 [8019] (.node (.node (.node .nil 8029 [8021] .nil) 8031 [8023] .nil) 8040 [8032] (.node .nil 8041 [8033] .nil)))))) 8042 [8034] (.node (.node (.node (.node (.node (.node (.node .nil 8043 [8035] .nil) 8044 [8036] .nil) 8045 [8037] (.node (.node .nil 8046 [8038] .nil) 8047 [8039] .nil)) 8072 [8064] (.node (.node (.node .nil 8073 [8065] .nil) 8074 [8066] .nil) 8075 [8067] (.node (.node .nil 8076 [8068] .nil) 8077 [8069] .nil))) 8078 [8070] (.node (.node (.node (.node .nil 8079 [8071] .nil) 8088 [8080] .nil) 8089 [8081] (.node (.node .nil 8090 [8082] .nil) 8091 [8083] .nil)) 8092 [8084] (.node (.node (.node .nil 8093 [8085] .nil) 8094 [8086] .nil) 8095 [8087] (.node .nil 8104 [8096] .nil)))) 8105 [8097] (.node (.node (.node (.node (.node .nil 8106 [8098] .nil) 8107 [8099] .nil) 8108 [8100] (.node (.node .nil 8109 [8101] .nil) 8110 [8102] .nil)) 8111 [8103] (.node (.node (.node .nil 8120 [8112] .nil) 8121 [8113] .nil) 8122 [8048] (.node .nil 8123 [8049] .nil))) 8124 [8115] (.node (.node (.node (.node .nil 8136 [8050] .nil) 8137 [8051] .nil) 8138 [8052] (.node (.node .nil 8139 [8053] .nil) 8140 [8131] .nil)) 8152 [8144] (.node (.node (.node .nil 8153 [8145] .nil) 8154 [8054] .nil) 8155 [8055] (.node .nil 8168 [8160] .nil))))) 8169 [8161] (.node (.node (.node (.node (.node (.node .nil 8170 [8058] .nil) 8171 [8059] .nil) 8172 [8165] (.node (.node .nil 8184 [8056] .nil) 8185 [8057] .nil)) 8186 [8060] (.node (.node (.node .nil 8187 [8061] .nil) 8188 [8179] .nil) 8486 [969] (.node .nil 8490 [107] .nil))) 8491 [229] (.node (.node (.node (.node .nil 8498 [8526] .nil) 8544 [8560] .nil) 8545 [8561] (.node (.node .nil 8546 [8562] .nil) 8547 [8563] .nil)) 8548 [8564] (.node (.node (.node .nil 8549 [8565] .nil) 8550 [8566] .nil) 8551 [8567] (.node .nil 8552 [8568] .nil)))) 8553 [8569] (.node (.node (.node (.node (.node .nil 8554 [8570] .nil) 8555 [8571] .nil) 8556 [8572] (.node (.node .nil 8557 [8573] .nil) 8558 [8574] .nil)) 8559 [8575] (.node (.node (.node .nil 8579 [8580] .nil) 9398 [9424] .nil) 9399 [9425] (.node .nil 9400 [9426] .nil))) 9401 [9427] (.node (.node (.node (.node .nil 9402 [9428] .nil) 9403 [9429] .nil) 9404 [9430] (.node (.node .nil 9405 [9431] .nil) 9406 [9432] .nil)) 9407 [9433] (.node (.node (.node .nil 9408 [9434] .nil) 9409 [9435] .nil) 9410 [9436] (.node .nil 9411 [9437] .nil))))))) 9412 [9438] (.node (.node (.node (.node (.node (.node (.node (.node .nil 9413 [9439] .nil) 9414 [9440] .nil) 9415 [9441] (.node (.node .nil 9416 [9442] .nil) 9417 [9443] .nil)) 9418 [9444] (.node (.node (.node .nil 9419 [9445] .nil) 9420 [9446] .nil) 9421 [9447] (.node (.node .nil 9422 [9448] .nil) 9423 [9449] .nil))) 11264 [11312] (.node (.node (.node (.node .nil 11265 [11313] .nil) 11266 [11314] .nil) 11267 [11315] (.node (.node .nil 11268 [11316] .nil) 11269 [11317] .nil)) 11270 [11318] (.node (.node (.node .nil 11271 [11319] .nil) 11272 [11320] .nil) 11273 [11321] (.node .nil 11274 [11322] .nil)))) 11275 [11323] (.node (.node (.node (.node (.node .nil 11276 [11324] .nil) 11277 [11325] .nil) 11278 [11326] (.node (.node .nil 11279 [11327] .nil) 11280 [11328] .nil)) 11281 [11329] (.node (.node (.node .nil 11282 [11330] .nil) 11283 [11331] .nil) 11284 [11332] (.node .nil 11285 [11333] .nil))) 11286 [11334] (.node (.node (.node (.node .nil 11287 [11335] .nil) 11288 [11336] .nil) 11289 [11337] (.node (.node .nil 11290 [11338] .nil) 11291 [11339] .nil)) 11292 [11340] (.node (.node (.node .nil 11293 [11341] .nil) 11294 [11342] .nil) 11295 [11343] (.node .nil 11296 [11344] .nil))))) 11297 [11345] (.node (.node (.node (.node (.node (.node .nil 11298 [11346] .nil) 11299 [11347] .nil) 11300 [11348] (.node (.node .nil 11301 [11349] .nil) 11302 [11350] .nil)) 11303 [11351] (.node (.node (.node .nil 11304 [11352] .nil) 11305 [11353] .nil) 11306 [11354] (.node (.node .nil 11307 [11355] .nil) 11308 [11356] .nil))) 11309 [11357] (.node (.node (.node (.node .nil 11310 [11358] .nil) 11311 [11359] .nil) 11360 [11361] (.node (.node .nil 11362 [619] .nil) 11363 [7549] .nil)) 11364 [637] (.node (.node (.node .nil 11367 [11368] .nil) 11369 [11370] .nil) 11371 [11372] (.node .nil 11373 [593] .nil)))) 11374 [625] (.node (.node (.node (.node (.node .nil 11375 [592] .nil) 11376 [594] .nil) 11378 [11379] (.node (.node .nil 11381 [11382] .nil) 11390 [575] .nil)) 11391 [576] (.node (.node (.node .nil 11392 [11393] .nil) 11394 [11395] .nil) 11396 [11397] (.node .nil 11398 [11399] .nil))) 11400 [11401] (.node (.node (.node (.node .nil 11402 [11403] .nil) 11404 [11405] .nil) 11406 [11407] (.node (.node .nil 11408 [11409] .nil) 11410 [11411] .nil)) 11412 [11413] (.node (.node (.node .nil 11414 [11415] .nil) 11416 [11417] .nil) 11418 [11419] (.node .nil 11420 [11421] .nil)))))) 11422 [11423] (.node (.node (.node (.node (.node (.node (.node .nil 11424 [11425] .nil) 11426 [11427] .nil) 11428 [11429] (.node (.node .nil 11430 [11431] .nil) 11432 [11433] .nil)) 11434 [11435] (.node (.node (.node .nil 11436 [11437] .nil) 11438 [11439] .nil) 11440 [11441] (.node (.node .nil 11442 [11443] .nil) 11444 [11445] .nil))) 11446 [11447] (.node (.node (.node (.node .nil 11448 [11449] .nil) 11450 [11451] .nil) 11452 [11453] (.node (.node .nil 11454 [11455] .nil) 11456 [11457] .nil)) 11458 [11459] (.node (.node (.node .nil 11460 [11461] .nil) 11462 [11463] .nil) 11464 [11465] (.node .nil 11466 [11467] .nil)))) 11468 [11469] (.node (.node (.node (.node (.node .nil 11470 [11471] .nil) 11472 [11473] .nil) 11474 [11475] (.node (.node .nil 11476 [11477] .nil) 11478 [11479] .nil)) 11480 [11481] (.node (.node (.node .nil 11482 [11483] .nil) 11484 [11485] .nil) 11486 [11487] (.node .nil 11488 [11489] .nil))) 11490 [11491] (.node (.node (.node (.node .nil 11499 [11500] .nil) 11501 [11502] .nil) 11506 [11507] (.node (.node .nil 42560 [42561] .nil) 42562 [42563] .nil)) 42564 [42565] (.node (.node (.node .nil 42566 [42567] .nil) 42568 [42569] .nil) 42570 [42571] (.node .nil 42572 [42573] .nil))))) 42574 [42575] (.node (.node (.node (.node (.node (.node .nil 42576 [42577] .nil) 42578 [42579] .nil) 42580 [42581] (.node (.node .nil 42582 [42583] .nil) 42584 [42585] .nil)) 42586 [42587] (.node (.node (.node .nil 42588 [42589] .nil) 42590 [42591] .nil) 42592 [42593] (.node .nil 42594 [42595] .nil))) 42596 [42597] (.node (.node (.node (.node .nil 42598 [42599] .nil) 42600 [42601] .nil) 42602 [42603] (.node (.node .nil 42604 [42605] .nil) 42624 [42625] .nil)) 42626 [42627] (.node (.node (.node .nil 42628 [42629] .nil) 42630 [42631] .nil) 42632 [42633] (.node .nil 42634 [42635] .nil)))) 42636 [42637] (.node (.node (.node (.node (.node .nil 42638 [42639] .nil) 42640 [42641] .nil) 42642 [42643] (.node (.node .nil 42644 [42645] .nil) 42646 [42647] .nil)) 42648 [42649] (.node (.node (.node .nil 42650 [42651] .nil) 42786 [42787] .nil) 42788 [42789] (.node .nil 42790 [42791] .nil))) 42792 [42793] (.node (.node (.node (.node .nil 42794 [42795] .nil) 42796 [42797] .nil) 42798 [42799] (.node (.node .nil 42802 [42803] .nil) 42804 [42805] .nil)) 42806 [42807] (.node (.node (.node .nil 42808 [42809] .nil) 42810 [42811] .nil) 42812 [42813] (.node .nil 42814 [42815] .nil)))))))) 42816 [42817] (.node (.node (.node (.node (.node (.node (.node (.node (.node .nil 42818 [42819] .nil) 42820 [42821] .nil) 42822 [42823] (.node (.node .nil 42824 [42825] .nil) 42826 [42827] .nil)) 42828 [42829] (.node (.node (.node .nil 42830 [42831] .nil) 42832 [42833] .nil) 42834 [42835] (.node (.node .nil 42836 [42837] .nil) 42838 [42839] .nil))) 42840 [42841] (.node (.node (.node (.node .nil 42842 [42843] .nil) 42844 [42845] .nil) 42846 [42847] (.node (.node .nil 42848 [42849] .nil) 42850 [42851] .nil)) 42852 [42853] (.node (.node (.node .nil 42854 [42855] .nil) 42856 [42857] .nil) 42858 [42859] (.node .nil 42860 [42861] .nil)))) 42862 [42863] (.node (.node (.node (.node (.node .nil 42873 [42874] .nil) 42875 [42876] .nil) 42877 [7545] (.node (.node .nil 42878 [42879] .nil) 42880 [42881] .nil)) 42882 [42883] (.node (.node (.node .nil 42884 [42885] .nil) 42886 [42887] .nil) 42891 [42892] (.node .nil 42893 [613] .nil))) 42896 [42897] (.node (.node (.node (.node .nil 42898 [42899] .nil) 42902 [42903] .nil) 42904 [42905] (.node (.node .nil 42906 [42907] .nil) 42908 [42909] .nil)) 42910 [42911] (.node (.node (.node .nil 42912 [42913] .nil) 42914 [42915] .nil) 42916 [42917] (.node .nil 42918 [42919] .nil))))) 42920 [42921] (.node (.node (.node (.node (.node (.node .nil 42922 [614] .nil) 42923 [604] .nil) 42924 [609] (.node (.node .nil 42925 [620] .nil) 42926 [618] .nil)) 42928 [670] (.node (.node (.node .nil 42929 [647] .nil) 42930 [669] .nil) 42931 [43859] (.node (.node .nil 42932 [42933] .nil) 42934 [42935] .nil))) 42936 [42937] (.node (.node (.node (.node .nil 42938 [42939] .nil) 42940 [42941] .nil) 42942 [42943] (.node (.node .nil 42944 [42945] .nil) 42946 [42947] .nil)) 42948 [42900] (.node (.node (.node .nil 42949 [642] .nil) 42950 [7566] .nil) 42951 [42952] (.node .nil 42953 [42954] .nil)))) 42960 [42961] (.node (.node (.node (.node (.node .nil 42966 [42967] .nil) 42968 [42969] .nil) 42997 [42998] (.node (.node .nil 65313 [65345] .nil) 65314 [65346] .nil)) 65315 [65347] (.node (.node (.node .nil 65316 [65348] .nil) 65317 [65349] .nil) 65318 [65350] (.node .nil 65319 [65351] .nil))) 65320 [65352] (.node (.node (.node (.node .nil 65321 [65353] .nil) 65322 [65354] .nil) 65323 [65355] (.node (.node .nil 65324 [65356] .nil) 65325 [65357] .nil)) 65326 [65358] (.node (.node (.node .nil 65327 [65359] .nil) 65328 [65360] .nil) 65329 [65361] (.node .nil 65330 [65362] .nil)))))) 65331 [65363] (.node (.node (.node (.node (.node (.node (.node .nil 65332 [65364] .nil) 65333 [65365] .nil) 65334 [65366] (.node (.node .nil 65335 [65367] .nil) 65336 [65368] .nil)) 65337 [65369] (.node (.node (.node .nil 65338 [65370] .nil) 66560 [66600] .nil) 66561 [66601] (.node (.node .nil 66562 [66602] .nil) 66563 [66603] .nil))) 66564 [66604] (.node (.node (.node (.node .nil 66565 [66605] .nil) 66566 [66606] .nil) 66567 [66607] (.node (.node .nil 66568 [66608] .nil) 66569 [66609] .nil)) 66570 [66610] (.node (.node (.node .nil 66571 [66611] .nil) 66572 [66612] .nil) 66573 [66613] (.node .nil 66574 [66614] .nil)))) 66575 [66615] (.node (.node (.node (.node (.node .nil 66576 [66616] .nil) 66577 [66617] .nil) 66578 [66618] (.node (.node .nil 66579 [66619] .nil) 66580 [66620] .nil)) 66581 [66621] (.node (.node (.node .nil 66582 [66622] .nil) 66583 [66623] .nil) 66584 [66624] (.node .nil 66585 [66625] .nil))) 66586 [66626] (.node (.node (.node (.node .nil 66587 [66627] .nil) 66588 [66628] .nil) 66589 [66629] (.node (.node .nil 66590 [66630] .nil) 66591 [66631] .nil)) 66592 [66632] (.node (.node (.node .nil 66593 [66633] .nil) 66594 [66634] .nil) 66595 [66635] (.node .nil 66596 [66636] .nil))))) 66597 [66637] (.node (.node (.node (.node (.node (.node .nil 66598 [66638] .nil) 66599 [66639] .nil) 66736 [66776] (.node (.node .nil 66737 [66777] .nil) 66738 [66778] .nil)) 66739 [66779] (.node (.node (.node .nil 66740 [66780] .nil) 66741 [66781] .nil) 66742 [66782] (.node .nil 66743 [66783] .nil))) 66744 [66784] (.node (.node (.node (.node .nil 66745 [66785] .nil) 66746 [66786] .nil) 66747 [66787] (.node (.node .nil 66748 [66788] .nil) 66749 [66789] .nil)) 66750 [66790] (.node (.node (.node .nil 66751 [66791] .nil) 66752 [66792] .nil) 66753 [66793] (.node .nil 66754 [66794] .nil)))) 66755 [66795] (.node (.node (.node (.node (.node .nil 66756 [66796] .nil) 66757 [66797] .nil) 66758 [66798] (.node (.node .nil 66759 [66799] .nil) 66760 [66800] .nil)) 66761 [66801] (.node (.node (.node .nil 66762 [66802] .nil) 66763 [66803] .nil) 66764 [66804] (.node .nil 66765 [66805] .nil))) 66766 [66806] (.node (.node (.node (.node .nil 66767 [66807] .nil) 66768 [66808] .nil) 66769 [66809] (.node (.node .nil 66770 [66810] .nil) 66771 [66811] .nil)) 66928 [66967] (.node (.node (.node .nil 66929 [66968] .nil) 66930 [66969] .nil) 66931 [66970] (.node .nil 66932 [66971] .nil))))))) 66933 [66972] (.node (.node (.node (.node (.node (.node (.node (.node .nil 66934 [66973] .nil) 66935 [66974] .nil) 66936 [66975] (.node (.node .nil 66937 [66976] .nil) 66938 [66977] .nil)) 66940 [66979] (.node (.node (.node .nil 66941 [66980] .nil) 66942 [66981] .nil) 66943 [66982] (.node (.node .nil 66944 [66983] .nil) 66945 [66984] .nil))) 66946 [66985] (.node (.node (.node (.node .nil 66947 [66986] .nil) 66948 [66987] .nil) 66949 [66988] (.node (.node .nil 66950 [66989] .nil) 66951 [66990] .nil)) 66952 [66991] (.node (.node (.node .nil 66953 [66992] .nil) 66954 [66993] .nil) 66956 [66995] (.node .nil 66957 [66996] .nil)))) 66958 [66997] (.node (.node (.node (.node (.node .nil 66959 [66998] .nil) 66960 [66999] .nil) 66961 [67000] (.node (.node .nil 66962 [67001] .nil) 66964 [67003] .nil)) 66965 [67004] (.node (.node (.node .nil 68736 [68800] .nil) 68737 [68801] .nil) 68738 [68802] (.node .nil 68739 [68803] .nil))) 68740 [68804] (.node (.node (.node (.node .nil 68741 [68805] .nil) 68742 [68806] .nil) 68743 [68807] (.node (.node .nil 68744 [68808] .nil) 68745 [68809] .nil)) 68746 [68810] (.node (.node (.node .nil 68747 [68811] .nil) 68748 [68812] .nil) 68749 [68813] (.node .nil 68750 [68814] .nil))))) 68751 [68815] (.node (.node (.node (.node (.node (.node .nil 68752 [68816] .nil) 68753 [68817] .nil) 68754 [68818] (.node (.node .nil 68755 [68819] .nil) 68756 [68820] .nil)) 68757 [68821] (.node (.node (.node .nil 68758 [68822] .nil) 68759 [68823] .nil) 68760 [68824] (.node (.node .nil 68761 [68825] .nil) 68762 [68826] .nil))) 68763 [68827] (.node (.node (.node (.node .nil 68764 [68828] .nil) 68765 [68829] .nil) 68766 [68830] (.node (.node .nil 68767 [68831] .nil) 68768 [68832] .nil)) 68769 [68833] (.node (.node (.node .nil 68770 [68834] .nil) 68771 [68835] .nil) 68772 [68836] (.node .nil 68773 [68837] .nil)))) 68774 [68838] (.node (.node (.node (.node (.node .nil 68775 [68839] .nil) 68776 [68840] .nil) 68777 [68841] (.node (.node .nil 68778 [68842] .nil) 68779 [68843] .nil)) 68780 [68844] (.node (.node (.node .nil 68781 [68845] .nil) 68782 [68846] .nil) 68783 [68847] (.node .nil 68784 [68848] .nil))) 68785 [68849] (.node (.node (.node (.node .nil 68786 [68850] .nil) 71840 [71872] .nil) 71841 [71873] (.node (.node .nil 71842 [71874] .nil) 71843 [71875] .nil)) 71844 [71876] (.node (.node (.node .nil 71845 [71877] .nil) 71846 [71878] .nil) 71847 [71879] (.node .nil 71848 [71880] .nil)))))) 71849 [71881] (.node (.node (.node (.node (.node (.node (.node .nil 71850 [71882] .nil) 71851 [71883] .nil) 71852 [71884] (.node (.node .nil 71853 [71885] .nil) 71854 [71886] .nil)) 71855 [71887] (.node (.node (.node .nil 71856 [71888] .nil) 71857 [71889] .nil) 71858 [71890] (.node (.node .nil 71859 [71891] .nil) 71860 [71892] .nil))) 71861 [71893] (.node (.node (.node (.node .nil 71862 [71894] .nil) 71863 [71895] .nil) 71864 [71896] (.node (.node .nil 71865 [71897] .nil) 71866 [71898] .nil)) 71867 [71899] (.node (.node (.node .nil 71868 [71900] .nil) 71869 [71901] .nil) 71870 [71902] (.node .nil 71871 [71903] .nil)))) 93760 [93792] (.node (.node (.node (.node (.node .nil 93761 [93793] .nil) 93762 [93794] .nil) 93763 [93795] (.node (.node .nil 93764 [93796] .nil) 93765 [93797] .nil)) 93766 [93798] (.node (.node (.node .nil 93767 [93799] .nil) 93768 [93800] .nil) 93769 [93801] (.node .nil 93770 [93802] .nil))) 93771 [93803] (.node (.node (.node (.node .nil 93772 [93804] .nil) 93773 [93805] .nil) 93774 [93806] (.node (.node .nil 93775 [93807] .nil) 93776 [93808] .nil)) 93777 [93809] (.node (.node (.node .nil 93778 [93810] .nil) 93779 [93811] .nil) 93780 [93812] (.node .nil 93781 [93813] .nil))))) 93782 [93814] (.node (.node (.node (.node (.node (.node .nil 93783 [93815] .nil) 93784 [93816] .nil) 93785 [93817] (.node (.node .nil 93786 [93818] .nil) 93787 [93819] .nil)) 93788 [93820] (.node (.node (.node .nil 93789 [93821] .nil) 93790 [93822] .nil) 93791 [93823] (.node .nil 125184 [125218] .nil))) 125185 [125219] (.node (.node (.node (.node .nil 125186 [125220] .nil) 125187 [125221] .nil) 125188 [125222] (.node (.node .nil 125189 [125223] .nil) 125190 [125224] .nil)) 125191 [125225] (.node (.node (.node .nil 125192 [125226] .nil) 125193 [125227] .nil) 125194 [125228] (.node .nil 125195 [125229] .nil)))) 125196 [125230] (.node (.node (.node (.node (.node .nil 125197 [125231] .nil) 125198 [125232] .nil) 125199 [125233] (.node (.node .nil 125200 [125234] .nil) 125201 [125235] .nil)) 125202 [125236] (.node (.node (.node .nil 125203 [125237] .nil) 125204 [125238] .nil) 125205 [125239] (.node .nil 125206 [125240] .nil))) 125207 [125241] (.node (.node (.node (.node .nil 125208 [125242] .nil) 125209 [125243] .nil) 125210 [125244] (.node (.node .nil 125211 [125245] .nil) 125212 [125246] .nil)) 125213 [125247] (.node (.node (.node .nil 125214 [125248] .nil) 125215 [125249] .nil) 125216 [125250] (.node .nil 125217 [125251] .nil))))))))))

/-- The code points with the Unicode `Cased` property (Unicode 14.0.0),
as ascending ranges; the carriers of the `Final_Sigma` context. -/
def casedTree : RTree :=
  (.node (.node (.node (.node (.node (.node (.node (.node .nil 65 90 .nil) 97 122 .nil) 170 170 (.node .nil 181 181 .nil)) 186 186 (.node (.node (.node .nil 192 214 .nil) 216 246 .nil) 248 442 (.node .nil 444 447 .nil))) 452 659 (.node (.node (.node (.node .nil 661 687 .nil) 880 883 .nil) 886 887 (.node .nil 891 893 .nil)) 895 895 (.node (.node .nil 902 902 .nil) 904 906 (.node .nil 908 908 .nil)))) 910 929 (.node (.node (.node (.node (.node .nil 931 1013 .nil) 1015 1153 .nil) 1162 1327 (.node .nil 1329 1366 .nil)) 1376 1416 (.node (.node (.node .nil 4256 4293 .nil) 4295 4295 .nil) 4301 4301 (.node .nil 4304 4346 .nil))) 4349 4351 (.node (.node (.node (.node .nil 5024 5109 .nil) 5112 5117 .nil) 7296 7304 (.node .nil 7312 7354 .nil)) 7357 7359 (.node (.node .nil 7424 7467 .nil) 7531 7543 (.node .nil 7545 7578 .nil))))) 7680 7957 (.node (.node (.node (.node (.node (.node .nil 7960 7965 .nil) 7968 8005 .nil) 8008 8013 (.node .nil 8016 8023 .nil)) 8025 8025 (.node (.node (.node .nil 8027 8027 .nil) 8029 8029 .nil) 8031 8061 (.node .nil 8064 8116 .nil))) 8118 8124 (.node (.node (.node (.node .nil 8126 8126 .nil) 8130 8132 .nil) 8134 8140 (.node .nil 8144 8147 .nil)) 8150 8155 (.node (.node .nil 8160 8172 .nil) 8178 8180 (.node .nil 8182 8188 .nil)))) 8450 8450 (.node (.node (.node (.node (.node .nil 8455 8455 .nil) 8458 8467 .nil) 8469 8469 (.node .nil 8473 8477 .nil)) 8484 8484 (.node (.node .nil 8486 8486 .nil) 8488 8488 (.node .nil 8490 8493 .nil))) 8495 8500 (.node (.node (.node (.node .nil 8505 8505 .nil) 8508 8511 .nil) 8517 8521 (.node .nil 8526 8526 .nil)) 8544 8575 (.node (.node .nil 8579 8580 .nil) 9398 9449 (.node .nil 11264 11387 .nil)))))) 11390 11492 (.node (.node (.node (.node (.node (.node (.node .nil 11499 11502 .nil) 11506 11507 .nil) 11520 11557 (.node .nil 11559 11559 .nil)) 11565 11565 (.node (.node (.node .nil 42560 42605 .nil) 42624 42651 .nil) 42786 42863 (.node .nil 42865 42887 .nil))) 42891 42894 (.node (.node (.node (.node .nil 42896 42954 .nil) 42960 42961 .nil) 42963 42963 (.node .nil 42965 42969 .nil)) 42997 42998 (.node (.node .nil 43002 43002 .nil) 43824 43866 (.node .nil 43872 43880 .nil)))) 43888 43967 (.node (.node (.node (.node (.node .nil 64256 64262 .nil) 64275 64279 .nil) 65313 65338 (.node .nil 65345 65370 .nil)) 66560 66639 (.node (.node (.node .nil 66736 66771 .nil) 66776 66811 .nil) 66928 66938 (.node .nil 66940 66954 .nil))) 66956 66962 (.node (.node (.node (.node .nil 66964 66965 .nil) 66967 66977 .nil) 66979 66993 (.node .nil 66995 67001 .nil)) 67003 67004 (.node (.node .nil 68736 68786 .nil) 68800 68850 (.node .nil 71840 71903 .nil))))) 93760 93823 (.node (.node (.node (.node (.node (.node .nil 119808 119892 .nil) 119894 119964 .nil) 119966 119967 (.node .nil 119970 119970 .nil)) 119973 119974 (.node (.node (.node .nil 119977 119980 .nil) 119982 119993 .nil) 119995 119995 (.node .nil 119997 120003 .nil))) 120005 120069 (.node (.node (.node (.node .nil 120071 120074 .nil) 120077 120084 .nil) 120086 120092 (.node .nil 120094 120121 .nil)) 120123 120126 (.node (.node .nil 120128 120132 .nil) 120134 120134 (.node .nil 120138 120144 .nil)))) 120146 120485 (.node (.node (.node (.node (.node .nil 120488 120512 .nil) 120514 120538 .nil) 120540 120570 (.node .nil 120572 120596 .nil)) 120598 120628 (.node (.node .nil 120630 120654 .nil) 120656 120686 (.node .nil 120688 120712 .nil))) 120714 120744 (.node (.node (.node (.node .nil 120746 120770 .nil) 120772 120779 .nil) 122624 122633 (.node .nil 122635 122654 .nil)) 125184 125251 (.node (.node .nil 127280 127305 .nil) 127312 127337 (.node .nil 127344 127369 .nil)))))))

/-- The code points with the Unicode `Case_Ignorable` property
(Unicode 14.0.0), as ascending ranges; transparent to the `Final_Sigma`
context. -/
def caseIgnorableTree : RTree :=
  (.node (.node (.node (.node (.node (.node (.node (.node (.node .nil 39 39 .nil) 46 46 (.node .nil 58 58 .nil)) 94 94 (.node (.node .nil 96 96 .nil) 168 168 .nil)) 173 173 (.node (.node (.node .nil 175 175 .nil) 180 180 (.node .nil 183 184 .nil)) 688 879 (.node (.node .nil 884 885 .nil) 890 890 .nil))) 900 901 (.node (.node (.node (.node .nil 903 903 .nil) 1155 1161 (.node .nil 1369 1369 .nil)) 1375 1375 (.node (.node .nil 1425 1469 .nil) 1471 1471 .nil)) 1473 1474 (.node (.node (.node .nil 1476 1477 .nil) 1479 1479 .nil) 1524 1524 (.node (.node .nil 1536 1541 .nil) 1552 1562 .nil)))) 1564 1564 (.node (.node (.node (.node (.node .nil 1600 1600 .nil) 1611 1631 (.node .nil 1648 1648 .nil)) 1750 1757 (.node (.node .nil 1759 1768 .nil) 1770 1773 .nil)) 1807 1807 (.node (.node (.node .nil 1809 1809 .nil) 1840 1866 (.node .nil 1958 1968 .nil)) 2027 2037 (.node (.node .nil 2042 2042 .nil) 2045 2045 .nil))) 2070 2093 (.node (.node (.node (.node .nil 2137 2139 .nil) 2184 2184 (.node .nil 2192 2193 .nil)) 2200 2207 (.node (.node .nil 2249 2306 .nil) 2362 2362 .nil)) 2364 2364 (.node (.node (.node .nil 2369 2376 .nil) 2381 2381 .nil) 2385 2391 (.node (.node .nil 2402 2403 .nil) 2417 2417 .nil))))) 2433 2433 (.node (.node (.node (.node (.node (.node .nil 2492 2492 .nil) 2497 2500 (.node .nil 2509 2509 .nil)) 2530 2531 (.node (.node .nil 2558 2558 .nil) 2561 2562 .nil)) 2620 2620 (.node (.node (.node .nil 2625 2626 .nil) 2631 2632 (.node .nil 2635 2637 .nil)) 2641 2641 (.node (.node .nil 2672 2673 .nil) 2677 2677 .nil))) 2689 2690 (.node (.node (.node (.node .nil 2748 2748 .nil) 2753 2757 (.node .nil 2759 2760 .nil)) 2765 2765 (.node (.node .nil 2786 2787 .nil) 2810 2815 .nil)) 2817 2817 (.node (.node (.node .nil 2876 2876 .nil) 2879 2879 .nil) 2881 2884 (.node (.node .nil 2893 2893 .nil) 2901 2902 .nil)))) 2914 2915 (.node (.node (.node (.node (.node .nil 2946 2946 .nil) 3008 3008 (.node .nil 3021 3021 .nil)) 3072 3072 (.node (.node .nil 3076 3076 .nil) 3132 3132 .nil)) 3134 3136 (.node (.node (.node .nil 3142 3144 .nil) 3146 3149 .nil) 3157 3158 (.node (.node .nil 3170 3171 .nil) 3201 3201 .nil))) 3260 3260 (.node (.node (.node (.node .nil 3263 3263 .nil) 3270 3270 (.node .nil 3276 3277 .nil)) 3298 3299 (.node (.node .nil 3328 3329 .nil) 3387 3388 .nil)) 3393 3396 (.node (.node (.node .nil 3405 3405 .nil) 3426 3427 .nil) 3457 3457 (.node (.node .nil 3530 3530 .nil) 3538 3540 .nil)))))) 3542 3542 (.node (.node (.node (.node (.node (.node (.node .nil 3633 3633 .nil) 3636 3642 (.node .nil 3654 3662 .nil)) 3761 3761 (.node (.node .nil 3764 3772 .nil) 3782 3782 .nil)) 3784 3789 (.node (.node (.node .nil 3864 3865 .nil) 3893 3893 (.node .nil 3895 3895 .nil)) 3897 3897 (.node (.node .nil 3953 3966 .nil) 3968 3972 .nil))) 3974 3975 (.node (.node (.node (.node .nil 3981 3991 .nil) 3993 4028 (.node .nil 4038 4038 .nil)) 4141 4144 (.node (.node .nil 4146 4151 .nil) 4153 4154 .nil)) 4157 4158 (.node (.node (.node .nil 4184 4185 .nil) 4190 4192 .nil) 4209 4212 (.node (.node .nil 4226 4226 .nil) 4229 4230 .nil)))) 4237 4237 (.node (.node (.node (.node (.node .nil 4253 4253 .nil) 4348 4348 (.node .nil 4957 4959 .nil)) 5906 5908 (.node (.node .nil 5938 5939 .nil) 5970 5971 .nil)) 6002 6003 (.node (.node (.node .nil 6068 6069 .nil) 6071 6077 (.node .nil 6086 6086 .nil)) 6089 6099 (.node (.node .nil 6103 6103 .nil) 6109 6109 .nil))) 6155 6159 (.node (.node (.node (.node .nil 6211 6211 .nil) 6277 6278 (.node .nil 6313 6313 .nil)) 6432 6434 (.node (.node .nil 6439 6440 .nil) 6450 6450 .nil)) 6457 6459 (.node (.node (.node .nil 6679 6680 .nil) 6683 6683 .nil) 6742 6742 (.node (.node .nil 6744 6750 .nil) 6752 6752 .nil))))) 6754 6754 (.node (.node (.node (.node (.node (.node .nil 6757 6764 .nil) 6771 6780 (.node .nil 6783 6783 .nil)) 6823 6823 (.node (.node .nil 6832 6862 .nil) 6912 6915 .nil)) 6964 6964 (.node (.node (.node .nil 6966 6970 .nil) 6972 6972 (.node .nil 6978 6978 .nil)) 7019 7027 (.node (.node .nil 7040 7041 .nil) 7074 7077 .nil))) 7080 7081 (.node (.node (.node (.node .nil 7083 7085 .nil) 7142 7142 (.node .nil 7144 7145 .nil)) 7149 7149 (.node (.node .nil 7151 7153 .nil) 7212 7219 .nil)) 7222 7223 (.node (.node (.node .nil 7288 7293 .nil) 7376 7378 .nil) 7380 7392 (.node (.node .nil 7394 7400 .nil) 7405 7405 .nil)))) 7412 7412 (.node (.node (.node (.node (.node .nil 7416 7417 .nil) 7468 7530 (.node .nil 7544 7544 .nil)) 7579 7679 (.node (.node .nil 8125 8125 .nil) 8127 8129 .nil)) 8141 8143 (.node (.node (.node .nil 8157 8159 .nil) 8173 8175 .nil) 8189 8190 (.node (.node .nil 8203 8207 .nil) 8216 8217 .nil))) 8228 8228 (.node (.node (.node (.node .nil 8231 8231 .nil) 8234 8238 (.node .nil 8288 8292 .nil)) 8294 8303 (.node (.node .nil 8305 8305 .nil) 8319 8319 .nil)) 8336 8348 (.node (.node (.node .nil 8400 8432 .nil) 11388 11389 .nil) 11503 11505 (.node (.node .nil 11631 11631 .nil) 11647 11647 .nil))))))) 11744 11775 (.node (.node (.node (.node (.node (.node (.node (.node .nil 11823 11823 .nil) 12293 12293 (.node .nil 12330 12333 .nil)) 12337 12341 (.node (.node .nil 12347 12347 .nil) 12441 12446 .nil)) 12540 12542 (.node (.node (.node .nil 40981 40981 .nil) 42232 42237 (.node .nil 42508 42508 .nil)) 42607 42610 (.node (.node .nil 42612 42621 .nil) 42623 42623 .nil))) 42652 42655 (.node (.node (.node (.node .nil 42736 42737 .nil) 42752 42785 (.node .nil 42864 42864 .nil)) 42888 42890 (.node (.node .nil 42994 42996 .nil) 43000 43001 .nil)) 43010 43010 (.node (.node (.node .nil 43014 43014 .nil) 43019 43019 .nil) 43045 43046 (.node (.node .nil 43052 43052 .nil) 43204 43205 .nil)))) 43232 43249 (.node (.node (.node (.node (.node .nil 43263 43263 .nil) 43302 43309 (.node .nil 43335 43345 .nil)) 43392 43394 (.node (.node .nil 43443 43443 .nil) 43446 43449 .nil)) 43452 43453 (.node (.node (.node .nil 43471 43471 .nil) 43493 43494 (.node .nil 43561 43566 .nil)) 43569 43570 (.node (.node .nil 43573 43574 .nil) 43587 43587 .nil))) 43596 43596 (.node (.node (.node (.node .nil 43632 43632 .nil) 43644 43644 (.node .nil 43696 43696 .nil)) 43698 43700 (.node (.node .nil 43703 43704 .nil) 43710 43711 .nil)) 43713 43713 (.node (.node (.node .nil 43741 43741 .nil) 43756 43757 .nil) 43763 43764 (.node (.node .nil 43766 43766 .nil) 43867 43871 .nil))))) 43881 43883 (.node (.node (.node (.node (.node (.node .nil 44005 44005 .nil) 44008 44008 (.node .nil 44013 44013 .nil)) 64286 64286 (.node (.node .nil 64434 64450 .nil) 65024 65039 .nil)) 65043 65043 (.node (.node (.node .nil 65056 65071 .nil) 65106 65106 (.node .nil 65109 65109 .nil)) 65279 65279 (.node (.node .nil 65287 65287 .nil) 65294 65294 .nil))) 65306 65306 (.node (.node (.node (.node .nil 65342 65342 .nil) 65344 65344 (.node .nil 65392 65392 .nil)) 65438 65439 (.node (.node .nil 65507 65507 .nil) 65529 65531 .nil)) 66045 66045 (.node (.node (.node .nil 66272 66272 .nil) 66422 66426 .nil) 67456 67461 (.node (.node .nil 67463 67504 .nil) 67506 67514 .nil)))) 68097 68099 (.node (.node (.node (.node (.node .nil 68101 68102 .nil) 68108 68111 (.node .nil 68152 68154 .nil)) 68159 68159 (.node (.node .nil 68325 68326 .nil) 68900 68903 .nil)) 69291 69292 (.node (.node (.node .nil 69446 69456 .nil) 69506 69509 .nil) 69633 69633 (.node (.node .nil 69688 69702 .nil) 69744 69744 .nil))) 69747 69748 (.node (.node (.node (.node .nil 69759 69761 .nil) 69811 69814 (.node .nil 69817 69818 .nil)) 69821 69821 (.node (.node .nil 69826 69826 .nil) 69837 69837 .nil)) 69888 69890 (.node (.node (.node .nil 69927 69931 .nil) 69933 69940 .nil) 70003 70003 (.node (.node .nil 70016 70017 .nil) 70070 70078 .nil)))))) 70089 70092 (.node (.node (.node (.node (.node (.node (.node .nil 70095 70095 .nil) 70191 70193 (.node .nil 70196 70196 .nil)) 70198 70199 (.node (.node .nil 70206 70206 .nil) 70367 70367 .nil)) 70371 70378 (.node (.node (.node .nil 70400 70401 .nil) 70459 70460 (.node .nil 70464 70464 .nil)) 70502 70508 (.node (.node .nil 70512 70516 .nil) 70712 70719 .nil))) 70722 70724 (.node (.node (.node (.node .nil 70726 70726 .nil) 70750 70750 (.node .nil 70835 70840 .nil)) 70842 70842 (.node (.node .nil 70847 70848 .nil) 70850 70851 .nil)) 71090 71093 (.node (.node (.node .nil 71100 71101 .nil) 71103 71104 .nil) 71132 71133 (.node (.node .nil 71219 71226 .nil) 71229 71229 .nil)))) 71231 71232 (.node (.node (.node (.node (.node .nil 71339 71339 .nil) 71341 71341 (.node .nil 71344 71349 .nil)) 71351 71351 (.node (.node .nil 71453 71455 .nil) 71458 71461 .nil)) 71463 71467 (.node (.node (.node .nil 71727 71735 .nil) 71737 71738 (.node .nil 71995 71996 .nil)) 71998 71998 (.node (.node .nil 72003 72003 .nil) 72148 72151 .nil))) 72154 72155 (.node (.node (.node (.node .nil 72160 72160 .nil) 72193 72202 (.node .nil 72243 72248 .nil)) 72251 72254 (.node (.node .nil 72263 72263 .nil) 72273 72278 .nil)) 72281 72283 (.node (.node (.node .nil 72330 72342 .nil) 72344 72345 .nil) 72752 72758 (.node (.node .nil 72760 72765 .nil) 72767 72767 .nil))))) 72850 72871 (.node (.node (.node (.node (.node (.node .nil 72874 72880 .nil) 72882 72883 (.node .nil 72885 72886 .nil)) 73009 73014 (.node (.node .nil 73018 73018 .nil) 73020 73021 .nil)) 73023 73029 (.node (.node (.node .nil 73031 73031 .nil) 73104 73105 (.node .nil 73109 73109 .nil)) 73111 73111 (.node (.node .nil 73459 73460 .nil) 78896 78904 .nil))) 92912 92916 (.node (.node (.node (.node .nil 92976 92982 .nil) 92992 92995 (.node .nil 94031 94031 .nil)) 94095 94111 (.node (.node .nil 94176 94177 .nil) 94179 94180 .nil)) 110576 110579 (.node (.node (.node .nil 110581 110587 .nil) 110589 110590 .nil) 113821 113822 (.node (.node .nil 113824 113827 .nil) 118528 118573 .nil)))) 118576 118598 (.node (.node (.node (.node (.node .nil 119143 119145 .nil) 119155 119170 (.node .nil 119173 119179 .nil)) 119210 119213 (.node (.node .nil 119362 119364 .nil) 121344 121398 .nil)) 121403 121452 (.node (.node (.node .nil 121461 121461 .nil) 121476 121476 .nil) 121499 121503 (.node (.node .nil 121505 121519 .nil) 122880 122886 .nil))) 122888 122904 (.node (.node (.node (.node .nil 122907 122913 .nil) 122915 122916 (.node .nil 122918 122922 .nil)) 123184 123197 (.node (.node .nil 123566 123566 .nil) 123628 123631 .nil)) 125136 125142 (.node (.node (.node .nil 125252 125259 .nil) 127995 127999 .nil) 917505 917505 (.node (.node .nil 917536 917631 .nil) 917760 917999 .nil))))))))

/-- Lowercase image of one code point under the unconditional mappings:
the stored expansion, or the code point itself. -/
def lowerChar (c : Nat) : List Nat := (lowerTree.find c).getD [c]

/-- The Unicode `Cased` property. -/
def isCased (c : Nat) : Bool := casedTree.mem c

/-- The Unicode `Case_Ignorable` property. -/
def isCaseIgnorable (c : Nat) : Bool := caseIgnorableTree.mem c

/-- Right-hand context of `Final_Sigma`: skipping case-ignorable code
points, whether the next code point is cased. -/
def followedByCased : List Nat → Bool
  | [] => false
  | c :: rest => if isCaseIgnorable c then followedByCased rest else isCased c

/-- Context-dependent lowercase of `U+03A3` GREEK CAPITAL LETTER SIGMA:
final sigma `U+03C2` when preceded by a cased code point (through
case-ignorables) and not followed by one, otherwise `U+03C3`. -/
def sigmaLower (beforeCtx : Bool) (rest : List Nat) : List Nat :=
  if beforeCtx && !followedByCased rest then [962] else [963]

/-- Left-hand `Final_Sigma` context after reading one code point: a cased
code point establishes it, a case-ignorable one preserves it, anything
else clears it. -/
def nextCtx (beforeCtx : Bool) (c : Nat) : Bool :=
  if isCased c then true else if isCaseIgnorable c then beforeCtx else false

/-- `String.prototype.toLowerCase`, the Unicode default case conversion:
each code point is replaced by its full lowercase mapping, the sole
default-locale conditional rule being `Final_Sigma` for `U+03A3`. -/
def jsLowerAux (beforeCtx : Bool) : List Nat → List Nat
  | [] => []
  | c :: rest =>
    (if c == 931 then sigmaLower beforeCtx rest else lowerChar c) ++
    jsLowerAux (nextCtx beforeCtx c) rest

/-- `String.prototype.toLowerCase` on a whole string: no left context at
the start. -/
def jsLower (s : List Nat) : List Nat := jsLowerAux false s

/-- `name` and `message` sanitizer: `value.trim().replace(/\s+/g, ' ')`. -/
def nameSanitize (value : List Nat) : List Nat := collapseWs (trim value)

/-- `email` sanitizer: `value.trim().toLowerCase()`, with `toLowerCase`
the Unicode default case conversion `jsLower`. -/
def emailSanitize (value : List Nat) : List Nat := jsLower (trim value)

/-- `phone` sanitizer: `value.trim()`. -/
def phoneSanitize (value : List Nat) : List Nat := trim value

/-- `service` sanitizer: `value.trim()`. -/
def serviceSanitize (value : List Nat) : List Nat := trim value

/-- `message` sanitizer: `value.trim().replace(/\s+/g, ' ')` (same body
as the `name` sanitizer). -/
def messageSanitize (value : List Nat) : List Nat := collapseWs (trim value)

/-- Decimal string of a number as code points; models the
template-literal interpolation `${rules.minLength}` /
`${rules.maxLength}` of the length error messages. -/
def natStr (n : Nat) : List Nat := (Nat.toDigits 10 n).map Char.toNat

/-- Whether a lowercase pattern matches at the head of the input,
case-insensitively (the input is case-folded character by character). -/
def matchesCI : List Nat → List Nat → Bool
  | [], _ => true
  | _ :: _, [] => false
  | p :: ps, c :: cs => p == lowerAscii c && matchesCI ps cs

/-- Case-insensitive pattern strip: on success returns the input with
the matched span removed. -/
def stripCI : List Nat → List Nat → Option (List Nat)
  | [], l => some l
  | _ :: _, [] => none
  | p :: ps, c :: cs => if p == lowerAscii c then stripCI ps cs else none

/-- The name pattern `/^[a-zA-Z\s'-]+$/`: a non-empty string of ASCII
letters, whitespace, apostrophes (`U+0027`) and hyphens. -/
def namePatternTest (s : List Nat) : Bool :=
  !s.isEmpty && s.all fun c =>
    (65 ≤ c && c ≤ 90) || (97 ≤ c && c ≤ 122) || isWs c || c == 39 || c == 45

/-- The email pattern `/^[^\s@]+@[^\s@]+\.[^\s@]+$/`: a match exists iff
the string has no whitespace, exactly one `@` (code 64) with a non-empty
part before it, and the part after the `@` contains a dot (code 46) that
is neither its first nor its last character. -/
def emailPatternTest (s : List Nat) : Bool :=
  let before := s.takeWhile fun c => c != 64
  let rest := s.drop (before.length + 1)
  decide (before.length < s.length) &&
  !before.isEmpty &&
  before.all (fun c => !isWs c) &&
  rest.all (fun c => !isWs c && c != 64) &&
  ((rest.drop 1).dropLast.contains 46)

/-- The phone pattern `/^[\d\s\-\(\)\+]+$/`: a non-empty string of ASCII
digits, whitespace, hyphens, parentheses and plus signs. -/
def phonePatternTest (s : List Nat) : Bool :=
  !s.isEmpty && s.all fun c =>
    (48 ≤ c && c ≤ 57) || isWs c || c == 45 || c == 40 || c == 41 || c == 43

/-- `email.additionalValidation`'s first check, the regex `/\.\./`:
two consecutive dots anywhere in the string. -/
def hasConsecutiveDots : List Nat → Bool
  | c1 :: c2 :: rest => (c1 == 46 && c2 == 46) || hasConsecutiveDots (c2 :: rest)
  | _ => false

/-- `email.additionalValidation`: consecutive dots are rejected, then the
local part (`value.split('@')[0]`, the prefix before the first `@`) must
be at most 64 units long. -/
def emailAdditional (value : List Nat) : Option (List Nat) :=
  if hasConsecutiveDots value then some (cp ("Email cannot contain consecutive dots"))
  else
    let localPart := value.takeWhile fun c => c != 64
    if 64 < jsLen localPart then some (cp ("Email local part too long"))
    else none

/-- ASCII digit test, the regex class `\d` (and the complement of `\D`). -/
def isAsciiDigit (c : Nat) : Bool := 48 ≤ c && c ≤ 57

/-- `phone.additionalValidation`: `value.replace(/\D/g, '')` keeps only
the digits; between 10 and 15 of them must remain. -/
def phoneAdditional (value : List Nat) : Option (List Nat) :=
  let digits := value.filter isAsciiDigit
  if jsLen digits < 10 then some (cp ("Phone number must contain at least 10 digits"))
  else if 15 < jsLen digits then some (cp ("Phone number must not exceed 15 digits"))
  else none

/-- The `service.allowedValues` list of the rule table. -/
def serviceAllowedValues : List (List Nat) :=
  [cp ("ac-installation"), cp ("ac-repair"), cp ("ac-maintenance"),
   cp ("heating-installation"), cp ("heating-repair"),
   cp ("emergency-service"), cp ("other")]

/-- `service.additionalValidation`: membership in
`rules.allowedValues`. -/
def serviceAdditional (value : List Nat) : Option (List Nat) :=
  if serviceAllowedValues.contains value then none
  else some (cp ("Please select a valid service option"))

/-- Drop the maximal non-whitespace run at the head (the span consumed by
the greedy `[^\s]+`). -/
def afterUrlBody : List Nat → List Nat
  | [] => []
  | c :: rest => if isWs c then c :: rest else afterUrlBody rest

/-- Greedy tail of a URL match: `[^\s]+` must consume at least one
non-whitespace character after `://`; returns the unconsumed rest. -/
def urlTail (l : List Nat) : Option (List Nat) :=
  match stripCI (cp ("://")) l with
  | none => none
  | some l3 =>
    match l3 with
    | [] => none
    | c :: _ => if isWs c then none else some (afterUrlBody l3)

/-- One attempted match of `/https?:\/\/[^\s]+/i` anchored at the head of
the input: `http` case-insensitively, a greedy optional `s` (with
backtracking to the branch without it), `://`, then at least one
non-whitespace character consumed greedily.  On success returns the
input minus the matched span. -/
def matchUrlAt (l : List Nat) : Option (List Nat) :=
  match stripCI (cp ("http")) l with
  | none => none
  | some l1 =>
    match l1 with
    | c :: rest =>
      if lowerAscii c == 115 then
        match urlTail rest with
        | some r => some r
        | none => urlTail l1
      else urlTail l1
    | [] => urlTail l1

/-- Global scan of `value.match(/https?:\/\/[^\s]+/gi)`: at each
position try a match; on success continue after the consumed span,
otherwise advance one character.  The fuel starts at the input length and
bounds the scan (each step removes at least one character). -/
def countUrlsFuel : Nat → List Nat → Nat
  | 0, _ => 0
  | _, [] => 0
  | fuel + 1, c :: rest =>
    match matchUrlAt (c :: rest) with
    | some remaining => 1 + countUrlsFuel fuel remaining
    | none => countUrlsFuel fuel rest

/-- Number of matches found by `value.match(/https?:\/\/[^\s]+/gi)`
(`urlCount` of `message.additionalValidation`). -/
def countUrls (s : List Nat) : Nat := countUrlsFuel s.length s

/-- The literal `<script` in code points, lower case. -/
def scPat : List Nat := cp ("<script")

/-- `/<script/gi.test(value)` as a plain search: some position of the
input starts with `<script`, case-insensitively. -/
def hasScriptIn : List Nat → Bool
  | [] => false
  | c :: rest => matchesCI scPat (c :: rest) || hasScriptIn rest

/-- The regex word-character class `\w` used by the `\b` boundary:
ASCII letters, digits and underscore. -/
def isWordChar (c : Nat) : Bool :=
  (65 ≤ c && c ≤ 90) || (97 ≤ c && c ≤ 122) || (48 ≤ c && c ≤ 57) || c == 95

/-- Word boundary after a keyword: end of input or a non-word
character. -/
def boundaryAfter : List Nat → Bool
  | [] => true
  | c :: _ => !isWordChar c

/-- Keyword alternation `(viagra|cialis|casino|lottery)` with the closing
`\b`, tried at the head of the input; returns the match length of the
first alternative that fits. -/
def kwEndAt (l : List Nat) : Option Nat :=
  if matchesCI (cp ("viagra")) l && boundaryAfter (l.drop 6) then some 6
  else if matchesCI (cp ("cialis")) l && boundaryAfter (l.drop 6) then some 6
  else if matchesCI (cp ("casino")) l && boundaryAfter (l.drop 6) then some 6
  else if matchesCI (cp ("lottery")) l && boundaryAfter (l.drop 7) then some 7
  else none

/-- Scan for `/\b(viagra|cialis|casino|lottery)\b/i`: the flag records
whether the previous character is a word character (the opening `\b`
holds exactly when it is not, since every keyword starts with a word
character). -/
def hasSpamWordAux (prevIsWord : Bool) : List Nat → Bool
  | [] => false
  | c :: rest =>
    (!prevIsWord && (kwEndAt (c :: rest)).isSome) ||
    hasSpamWordAux (isWordChar c) rest

/-- `/\b(viagra|cialis|casino|lottery)\b/gi.test(value)` as a plain
search from the start of the input. -/
def hasSpamWord (s : List Nat) : Bool := hasSpamWordAux false s

/-- `message.additionalValidation`: more than two URL matches are
rejected first; then the loop over `suspiciousPatterns.slice(1)` tests
the script-tag pattern and the spam-keyword pattern (the URL pattern at
index 0 is skipped by the slice), each rejection reporting the same
prohibited-content message. -/
def messageAdditional (value : List Nat) : Option (List Nat) :=
  let urlCount := countUrls value
  if 2 < urlCount then some (cp ("Message contains too many links"))
  else if hasScriptIn value then some (cp ("Message contains prohibited content"))
  else if hasSpamWord value then some (cp ("Message contains prohibited content"))
  else none

/-- A rule of `VALIDATION_RULES`.  Field order: `required`, `minLength`,
`maxLength`, `pattern`, `allowedValues`, `message`, `sanitize`,
`additionalValidation`.  `allowedValues` is carried but, as in the
source, never read by `validateField` itself — the `service` rule checks
it through its `additionalValidation` closure. -/
structure Rule where
  required : Bool
  minLength : Option Nat
  maxLength : Option Nat
  rulePattern : Option (List Nat → Bool)
  allowedValues : Option (List (List Nat))
  message : List Nat
  sanitize : Option (List Nat → List Nat)
  additionalValidation : Option (List Nat → Option (List Nat))

/-- Result of `validateField` (`ValidationResult` of the source). -/
structure FieldResult where
  valid : Bool
  error : Option (List Nat)
  sanitizedValue : List Nat
deriving DecidableEq

/-- The `name` rule of `VALIDATION_RULES`. -/
def nameRule : Rule :=
  ⟨true, some 2, some 100, some namePatternTest, none,
   cp ("Please enter a valid name (letters, spaces, hyphens, and apostrophes only)"),
   some nameSanitize, none⟩

/-- The `email` rule of `VALIDATION_RULES`. -/
def emailRule : Rule :=
  ⟨true, none, some 254, some emailPatternTest, none,
   cp ("Please enter a valid email address"),
   some emailSanitize, some emailAdditional⟩

/-- The `phone` rule of `VALIDATION_RULES`. -/
def phoneRule : Rule :=
  ⟨true, some 10, some 20, some phonePatternTest, none,
   cp ("Please enter a valid phone number"),
   some phoneSanitize, some phoneAdditional⟩

/-- The `service` rule of `VALIDATION_RULES`. -/
def serviceRule : Rule :=
  ⟨true, none, none, none, some serviceAllowedValues,
   cp ("Please select a service"),
   some serviceSanitize, some serviceAdditional⟩

/-- The `message` rule of `VALIDATION_RULES`. -/
def messageRule : Rule :=
  ⟨false, some 0, some 1000, none, none,
   cp ("Message must not exceed 1000 characters"),
   some messageSanitize, some messageAdditional⟩

/-- The rule table `VALIDATION_RULES`, a lookup on the field name. -/
def VALIDATION_RULES (fieldName : List Nat) : Option Rule :=
  if fieldName = cp ("name") then some nameRule
  else if fieldName = cp ("email") then some emailRule
  else if fieldName = cp ("phone") then some phoneRule
  else if fieldName = cp ("service") then some serviceRule
  else if fieldName = cp ("message") then some messageRule
  else none

/-- `formatFieldName`: the `nameMap` lookup, falling back to
`fieldName.charAt(0).toUpperCase() + fieldName.slice(1)`. -/
def formatFieldName (fieldName : List Nat) : List Nat :=
  if fieldName = cp ("name") then cp ("Name")
  else if fieldName = cp ("email") then cp ("Email")
  else if fieldName = cp ("phone") then cp ("Phone")
  else if fieldName = cp ("service") then cp ("Service")
  else if fieldName = cp ("message") then cp ("Message")
  else
    match fieldName with
    | [] => []
    | c :: rest => upperAscii c :: rest

/-- The interpolated minimum-length error message. -/
def atLeastMsg (f : List Nat) (mn : Nat) : List Nat :=
  formatFieldName f ++ cp (" must be at least ") ++ natStr mn ++ cp (" characters")

/-- The interpolated maximum-length error message. -/
def notExceedMsg (f : List Nat) (mx : Nat) : List Nat :=
  formatFieldName f ++ cp (" must not exceed ") ++ natStr mx ++ cp (" characters")

/-- `rules.sanitize ? rules.sanitize(value) : value.trim()`. -/
def applySanitize (r : Rule) (value : List Nat) : List Nat :=
  match r.sanitize with
  | some f => f value
  | none => trim value

/-- JavaScript truthiness of a string-or-null value: `null` and the
empty string are falsy. -/
def jsTruthy : Option (List Nat) → Bool
  | some s => !s.isEmpty
  | none => false

/-- Last stage of `validateField`: `rules.additionalValidation`, guarded
by the truthiness of the returned message, then the all-passed result. -/
def checkCustom (r : Rule) (s : List Nat) : FieldResult :=
  match r.additionalValidation with
  | some check =>
    let additionalError := check s
    if jsTruthy additionalError then ⟨false, additionalError, s⟩
    else ⟨true, none, s⟩
  | none => ⟨true, none, s⟩

/-- Pattern stage of `validateField`: `rules.pattern &&
!rules.pattern.test(sanitizedValue)` fails with `rules.message`. -/
def checkRulePattern (r : Rule) (s : List Nat) : FieldResult :=
  match r.rulePattern with
  | some p => if p s then checkCustom r s else ⟨false, some r.message, s⟩
  | none => checkCustom r s

/-- Maximum-length stage of `validateField`: `rules.maxLength !==
undefined && sanitizedValue.length > rules.maxLength`. -/
def checkMax (fieldName : List Nat) (r : Rule) (s : List Nat) : FieldResult :=
  match r.maxLength with
  | some mx =>
    if mx < jsLen s then
      ⟨false,
       some (formatFieldName fieldName ++ cp (" must not exceed ") ++
             natStr mx ++ cp (" characters")), s⟩
    else checkRulePattern r s
  | none => checkRulePattern r s

/-- Minimum-length stage of `validateField`: `rules.minLength !==
undefined && sanitizedValue.length < rules.minLength`. -/
def checkMin (fieldName : List Nat) (r : Rule) (s : List Nat) : FieldResult :=
  match r.minLength with
  | some mn =>
    if jsLen s < mn then
      ⟨false,
       some (formatFieldName fieldName ++ cp (" must be at least ") ++
             natStr mn ++ cp (" characters")), s⟩
    else checkMax fieldName r s
  | none => checkMax fieldName r s

/-- The check sequence of `validateField` after sanitization: required,
optional-and-empty, then the length, pattern and custom stages, in the
source's order of early returns. -/
def runChecks (fieldName : List Nat) (r : Rule) (s : List Nat) : FieldResult :=
  if r.required && s.isEmpty then
    ⟨false, some (formatFieldName fieldName ++ cp (" is required")), s⟩
  else if s.isEmpty && !r.required then ⟨true, none, s⟩
  else checkMin fieldName r s

/-- `validateField`: unknown fields are tolerated with the raw value
passed through; known fields sanitize first and then run the check
sequence on the sanitized value only. -/
def validateField (fieldName value : List Nat) : FieldResult :=
  match VALIDATION_RULES fieldName with
  | none => ⟨true, none, value⟩
  | some rules => runChecks fieldName rules (applySanitize rules value)

/-- The rule-table key list, in the table's declaration order (the order
`Object.keys(VALIDATION_RULES)` yields). -/
def FORM_FIELDS : List (List Nat) :=
  [cp ("name"), cp ("email"), cp ("phone"), cp ("service"), cp ("message")]

/-- `formData[fieldName] || ''`: an absent binding (and an empty one)
reads as the empty string. -/
def getOr (formData : List Nat → Option (List Nat)) (k : List Nat) : List Nat :=
  (formData k).getD []

/-- Result of `validateForm`.  `errors` models the `Map` in insertion
order; `sanitizedData` models the object keys in insertion order. -/
structure FormResult where
  valid : Bool
  errors : List (List Nat × Option (List Nat))
  sanitizedData : List (List Nat × List Nat)
deriving DecidableEq

/-- The `forEach` loop of `validateForm` over a field list: conjoins the
validities, records `(fieldName, result.error)` for each invalid field
and `(fieldName, result.sanitizedValue)` unconditionally. -/
def validateFormGo (formData : List Nat → Option (List Nat)) :
    List (List Nat) →
    Bool × (List (List Nat × Option (List Nat)) × List (List Nat × List Nat))
  | [] => (true, ([], []))
  | f :: rest =>
    let result := validateField f (getOr formData f)
    let acc := validateFormGo formData rest
    (result.valid && acc.1,
     (if result.valid then acc.2.1 else (f, result.error) :: acc.2.1,
      (f, result.sanitizedValue) :: acc.2.2))

/-- `validateForm`: runs the loop over the rule-table keys. -/
def validateForm (formData : List Nat → Option (List Nat)) : FormResult :=
  ⟨(validateFormGo formData FORM_FIELDS).1,
   (validateFormGo formData FORM_FIELDS).2.1,
   (validateFormGo formData FORM_FIELDS).2.2⟩

/-- Result of `validateFieldsFast`: the spread `{fieldName, ...result}`
of the first invalid field. -/
structure FastResult where
  fieldName : List Nat
  valid : Bool
  error : Option (List Nat)
  sanitizedValue : List Nat
deriving DecidableEq

/-- `validateFieldsFast`: walks `Object.entries(fields)` in order and
returns the first invalid result, or `null`. -/
def validateFieldsFast : List (List Nat × List Nat) → Option FastResult
  | [] => none
  | (f, v) :: rest =>
    let result := validateField f v
    if result.valid then validateFieldsFast rest
    else some ⟨f, result.valid, result.error, result.sanitizedValue⟩

/-- Read a record given as an ordered entry list the way
`formData[fieldName]` reads a JavaScript object: the value at the first
entry bearing the key. -/
def lookupEntry (l : List (List Nat × List Nat)) (k : List Nat) : Option (List Nat) :=
  match l with
  | [] => none
  | (f, v) :: rest => if f = k then some v else lookupEntry rest k

/-- Position-indexed search for `<script` (case-insensitive) at positions
at or beyond `li` (the regex `lastIndex`); returns the end position of
the first match, the value a global-flagged `test` would store back into
`lastIndex`. -/
def scFindFromAux (li : Nat) (pos : Nat) : List Nat → Option Nat
  | [] => none
  | c :: rest =>
    if li ≤ pos && matchesCI scPat (c :: rest) then some (pos + 7)
    else scFindFromAux li (pos + 1) rest

/-- `/<script/gi.test` with an explicit `lastIndex`: a `lastIndex` past
the input resets and fails; a hit advances `lastIndex` to the match end;
a miss resets it to `0`. -/
def scTestG (li : Nat) (s : List Nat) : Bool × Nat :=
  if s.length < li then (false, 0)
  else
    match scFindFromAux li 0 s with
    | some e => (true, e)
    | none => (false, 0)

/-- Position-indexed search for the spam-keyword pattern at positions at
or beyond `li`, carrying the word-character status of the previous
character for the opening `\b` (which is evaluated against the full
input even when `lastIndex` is positive). -/
def kwFindFromAux (li : Nat) (prevIsWord : Bool) (pos : Nat) : List Nat → Option Nat
  | [] => none
  | c :: rest =>
    if li ≤ pos && !prevIsWord then
      match kwEndAt (c :: rest) with
      | some len => some (pos + len)
      | none => kwFindFromAux li (isWordChar c) (pos + 1) rest
    else kwFindFromAux li (isWordChar c) (pos + 1) rest

/-- `/\b(viagra|cialis|casino|lottery)\b/gi.test` with an explicit
`lastIndex`. -/
def kwTestG (li : Nat) (s : List Nat) : Bool × Nat :=
  if s.length < li then (false, 0)
  else
    match kwFindFromAux li false 0 s with
    | some e => (true, e)
    | none => (false, 0)

/-- `message.additionalValidation` with the mutable `lastIndex` of each
global-flagged regex modelled explicitly.  The `suspiciousPatterns`
array literal is evaluated on every call, so each regex starts the call
with `lastIndex = 0`; the final `lastIndex` values die with the local
array. -/
def messageAdditionalStateful (value : List Nat) : Option (List Nat) :=
  let urlCount := countUrls value
  if 2 < urlCount then some (cp ("Message contains too many links"))
  else
    let r1 := scTestG 0 value
    if r1.1 then some (cp ("Message contains prohibited content"))
    else
      let r2 := kwTestG 0 value
      if r2.1 then some (cp ("Message contains prohibited content"))
      else none

/-- The `message` rule with the state-threaded custom check. -/
def messageRuleS : Rule :=
  ⟨false, some 0, some 1000, none, none,
   cp ("Message must not exceed 1000 characters"),
   some messageSanitize, some messageAdditionalStateful⟩

/-- The rule table with the state-threaded `message` rule. -/
def VALIDATION_RULES_S (fieldName : List Nat) : Option Rule :=
  if fieldName = cp ("name") then some nameRule
  else if fieldName = cp ("email") then some emailRule
  else if fieldName = cp ("phone") then some phoneRule
  else if fieldName = cp ("service") then some serviceRule
  else if fieldName = cp ("message") then some messageRuleS
  else none

/-- `validateField` over the table whose `message` custom check threads
the regex `lastIndex` state explicitly. -/
def validateFieldStateful (fieldName value : List Nat) : FieldResult :=
  match VALIDATION_RULES_S fieldName with
  | none => ⟨true, none, value⟩
  | some rules => runChecks fieldName rules (applySanitize rules value)

/-- `dropWs` never lengthens a list. -/
theorem dropWs_length_le (l : List Nat) : (dropWs l).length ≤ l.length := by
  induction l with
  | nil => simp [dropWs]
  | cons c rest ih =>
    simp only [dropWs]
    split
    · exact Nat.le_trans ih (Nat.le_succ _)
    · exact Nat.le_refl _

/-- Leading-whitespace removal is idempotent. -/
theorem dropWs_dropWs (l : List Nat) : dropWs (dropWs l) = dropWs l := by
  induction l with
  | nil => rfl
  | cons c rest ih =>
    simp only [dropWs]
    split
    · exact ih
    · rename_i h
      simp only [dropWs]
      rw [if_neg h]

/-- Trailing-whitespace removal is idempotent. -/
theorem trimRight_trimRight (l : List Nat) : trimRight (trimRight l) = trimRight l := by
  induction l with
  | nil => rfl
  | cons c rest ih =>
    simp only [trimRight]
    split
    · rfl
    · rename_i h
      simp only [trimRight, ih]
      rw [if_neg h]

/-- A list fixed by `dropWs` stays fixed by `dropWs` after its trailing
whitespace is removed. -/
theorem dropWs_trimRight (l : List Nat) (h : dropWs l = l) :
    dropWs (trimRight l) = trimRight l := by
  cases l with
  | nil => rfl
  | cons c rest =>
    have hc : isWs c = false := by
      cases hcc : isWs c
      · rfl
      · exfalso
        simp only [dropWs, hcc, if_true] at h
        have h1 := dropWs_length_le rest
        have h2 := congrArg List.length h
        simp only [List.length_cons] at h2
        omega
    simp only [trimRight]
    split
    · rfl
    · simp [dropWs, hc]

/-- `String.prototype.trim` is idempotent. -/
theorem trim_trim (l : List Nat) : trim (trim l) = trim l := by
  unfold trim
  rw [dropWs_trimRight (dropWs l) (dropWs_dropWs l), trimRight_trimRight]

/-- The space character is whitespace. -/
theorem isWs_32 : isWs 32 = true := rfl

/-- Whitespace collapsing is idempotent, jointly over both values of the
previous-run flag. -/
theorem collapseWsAux_self (l : List Nat) :
    collapseWsAux false (collapseWsAux false l) = collapseWsAux false l ∧
    collapseWsAux false (collapseWsAux true l) = collapseWsAux true l ∧
    collapseWsAux true (collapseWsAux true l) = collapseWsAux true l := by
  induction l with
  | nil => exact ⟨rfl, rfl, rfl⟩
  | cons c rest ih =>
    obtain ⟨ihA, ihB, ihC⟩ := ih
    cases hc : isWs c with
    | true =>
      refine ⟨?_, ?_, ?_⟩
      · simp [collapseWsAux, hc, isWs_32, ihC]
      · simp only [collapseWsAux, hc, if_true]
        exact ihB
      · simp only [collapseWsAux, hc, if_true]
        exact ihC
    | false =>
      refine ⟨?_, ?_, ?_⟩ <;> simp [collapseWsAux, hc, ihA]

/-- A list fixed by `dropWs` has a non-whitespace head. -/
theorem head_not_ws {c : Nat} {rest : List Nat} (h : dropWs (c :: rest) = c :: rest) :
    isWs c = false := by
  cases hcc : isWs c
  · rfl
  · exfalso
    simp only [dropWs, hcc, if_true] at h
    have h1 := dropWs_length_le rest
    have h2 := congrArg List.length h
    simp only [List.length_cons] at h2
    omega

/-- Collapsing with the in-run flag yields the empty list exactly on
all-whitespace input. -/
theorem collapseWsAux_true_nil (l : List Nat) :
    (collapseWsAux true l = []) ↔ l.all isWs = true := by
  induction l with
  | nil => simp [collapseWsAux]
  | cons c rest ih =>
    by_cases hc : isWs c = true
    · simp [collapseWsAux, hc, ih]
    · simp [collapseWsAux, hc]

/-- Trailing-whitespace removal empties an all-whitespace list. -/
theorem trimRight_of_allWs (l : List Nat) (h : l.all isWs = true) : trimRight l = [] := by
  induction l with
  | nil => rfl
  | cons c rest ih =>
    simp only [List.all_cons, Bool.and_eq_true] at h
    simp [trimRight, ih h.2, h.1]

/-- A list fixed by `dropWs` stays fixed by `dropWs` after whitespace
collapsing. -/
theorem dropWs_collapseWs (l : List Nat) (h : dropWs l = l) :
    dropWs (collapseWs l) = collapseWs l := by
  cases l with
  | nil => rfl
  | cons c rest =>
    have hc := head_not_ws h
    simp [collapseWs, collapseWsAux, hc, dropWs]

/-- A list fixed by `trimRight` stays fixed by `trimRight` after
whitespace collapsing, jointly over both values of the run flag. -/
theorem trimRight_collapseWsAux : ∀ l : List Nat, trimRight l = l →
    trimRight (collapseWsAux false l) = collapseWsAux false l ∧
    trimRight (collapseWsAux true l) = collapseWsAux true l := by
  intro l
  induction l with
  | nil => intro _; exact ⟨rfl, rfl⟩
  | cons c rest ih =>
    intro h
    have hcond : ¬ ((trimRight rest).isEmpty && isWs c) = true := by
      intro hc2
      simp only [trimRight] at h
      rw [if_pos hc2] at h
      exact (List.cons_ne_nil c rest) h.symm
    have hr : trimRight rest = rest := by
      simp only [trimRight] at h
      rw [if_neg hcond] at h
      simp only [List.cons.injEq, true_and] at h
      exact h
    obtain ⟨ih1, ih2⟩ := ih hr
    by_cases hc : isWs c = true
    · have hre : rest ≠ [] := by
        intro hnil
        subst hnil
        exact hcond (by simp [hc, trimRight])
      have hallws : rest.all isWs = false := by
        cases hall : rest.all isWs
        · rfl
        · exfalso
          have h2 := trimRight_of_allWs rest hall
          rw [hr] at h2
          exact hre h2
      have hctne : collapseWsAux true rest ≠ [] := by
        intro hnil
        have h3 := (collapseWsAux_true_nil rest).mp hnil
        simp [hallws] at h3
      have hie : (collapseWsAux true rest).isEmpty = false := by
        cases hx : collapseWsAux true rest
        · exact absurd hx hctne
        · rfl
      constructor
      · simp only [collapseWsAux, hc, if_true, Bool.false_eq_true, if_false,
          List.singleton_append]
        simp [trimRight, ih2, hie]
      · simp only [collapseWsAux, hc, if_true]
        exact ih2
    · constructor <;>
      · simp only [collapseWsAux, hc, Bool.false_eq_true, if_false]
        simp [trimRight, ih1, hc]

/-- `trim` output is fixed by `dropWs`. -/
theorem trim_fix_dropWs (l : List Nat) : dropWs (trim l) = trim l := by
  unfold trim
  exact dropWs_trimRight (dropWs l) (dropWs_dropWs l)

/-- `trim` output is fixed by `trimRight`. -/
theorem trim_fix_trimRight (l : List Nat) : trimRight (trim l) = trim l := by
  unfold trim
  exact trimRight_trimRight (dropWs l)

/-- A list fixed by both halves of `trim` is fixed by `trim`. -/
theorem trim_of_fixes (y : List Nat) (h1 : dropWs y = y) (h2 : trimRight y = y) :
    trim y = y := by
  unfold trim
  rw [h1]
  exact h2

/-- The `name` (and `message`) sanitizer is idempotent. -/
theorem nameSanitize_idem (x : List Nat) : nameSanitize (nameSanitize x) = nameSanitize x := by
  unfold nameSanitize
  have h1 : trim (collapseWs (trim x)) = collapseWs (trim x) :=
    trim_of_fixes _ (dropWs_collapseWs (trim x) (trim_fix_dropWs x))
      ((trimRight_collapseWsAux (trim x) (trim_fix_trimRight x)).1)
  rw [h1]
  exact (collapseWsAux_self (trim x)).1

/-- Every stored lowercase image is non-empty and consists of code
points that are fixed by the mapping, are not `U+03A3` and are not
whitespace. -/
theorem lowerTree_good : lowerTree.All (fun _ e =>
    !e.isEmpty && e.all fun y =>
      (lowerTree.find y).isNone && !(y == 931) && !(isWs y)) = true := by decide

/-- A nodewise tree property holds of every successful lookup. -/
theorem LTree.find_all (p : Nat → List Nat → Bool) : ∀ t : LTree,
    t.All p = true → ∀ c e, t.find c = some e → p c e = true := by
  intro t
  induction t with
  | nil => intro _ c e h; exact Option.noConfusion h
  | node l k e0 r ihl ihr =>
    intro hall c e hfind
    simp only [LTree.All, Bool.and_eq_true] at hall
    obtain ⟨⟨hpk, hl⟩, hr⟩ := hall
    simp only [LTree.find] at hfind
    by_cases hc1 : c < k
    · rw [if_pos hc1] at hfind
      exact ihl hl c e hfind
    · rw [if_neg hc1] at hfind
      by_cases hc2 : k < c
      · rw [if_pos hc2] at hfind
        exact ihr hr c e hfind
      · rw [if_neg hc2] at hfind
        have hck : c = k := by omega
        subst hck
        injection hfind with he
        subst he
        exact hpk

/-- Away from `U+03A3`, every code point of a lowercase image is itself
fixed by `lowerChar`, is not `U+03A3`, and is whitespace only if the
source code point was. -/
theorem lowerChar_out_good (c : Nat) (hc : c ≠ 931) :
    ∀ y ∈ lowerChar c, lowerChar y = [y] ∧ y ≠ 931 ∧ (isWs y = true → isWs c = true) := by
  intro y hy
  unfold lowerChar at hy
  cases hf : lowerTree.find c with
  | none =>
    rw [hf] at hy
    simp only [Option.getD_none, List.mem_singleton] at hy
    subst hy
    exact ⟨by unfold lowerChar; rw [hf]; rfl, hc, fun h => h⟩
  | some e =>
    rw [hf] at hy
    simp only [Option.getD_some] at hy
    have hp := LTree.find_all _ lowerTree lowerTree_good c e hf
    simp only [Bool.and_eq_true, List.all_eq_true] at hp
    obtain ⟨_, hall⟩ := hp
    have hy2 := hall y hy
    simp only [Bool.and_eq_true, Option.isNone_iff_eq_none, Bool.not_eq_true',
      beq_eq_false_iff_ne, ne_eq] at hy2
    obtain ⟨⟨hfy, hy931⟩, hyws⟩ := hy2
    refine ⟨by unfold lowerChar; rw [hfy]; rfl, hy931, ?_⟩
    intro hw
    rw [hw] at hyws
    exact Bool.noConfusion hyws

/-- Lowercase images are never empty. -/
theorem lowerChar_ne_nil (c : Nat) : lowerChar c ≠ [] := by
  unfold lowerChar
  cases hf : lowerTree.find c with
  | none => simp
  | some e =>
    have hp := LTree.find_all _ lowerTree lowerTree_good c e hf
    simp only [Bool.and_eq_true] at hp
    obtain ⟨hne, _⟩ := hp
    simp only [Option.getD_some]
    intro hx
    subst hx
    simp at hne

/-- The per-code-point output of the case conversion is never empty. -/
theorem mapped_ne_nil (b : Bool) (c : Nat) (rest : List Nat) :
    (if c == 931 then sigmaLower b rest else lowerChar c) ≠ [] := by
  by_cases h : (c == 931) = true
  · simp only [h, if_true]
    unfold sigmaLower
    split <;> simp
  · simp only [h, if_false]
    exact lowerChar_ne_nil c

/-- Every code point output for one input code point is fixed by
`lowerChar`, is not `U+03A3`, and is whitespace only if the input
was. -/
theorem mapped_good (b : Bool) (c : Nat) (rest : List Nat) :
    ∀ y ∈ (if c == 931 then sigmaLower b rest else lowerChar c),
      lowerChar y = [y] ∧ y ≠ 931 ∧ (isWs y = true → isWs c = true) := by
  by_cases h : (c == 931) = true
  · simp only [h, if_true]
    unfold sigmaLower
    split <;>
    · intro y hy
      simp only [List.mem_singleton] at hy
      subst hy
      refine ⟨by decide, by decide, fun hws => absurd hws (by decide)⟩
  · have hc : c ≠ 931 := by simpa [beq_iff_eq] using h
    simp only [h, if_false]
    exact lowerChar_out_good c hc

/-- Every code point of a case-conversion output is fixed by `lowerChar`
and is not `U+03A3`. -/
theorem jsLowerAux_out_good : ∀ (x : List Nat) (b : Bool), ∀ y ∈ jsLowerAux b x,
    lowerChar y = [y] ∧ y ≠ 931 := by
  intro x
  induction x with
  | nil => intro b y hy; simp [jsLowerAux] at hy
  | cons c rest ih =>
    intro b y hy
    simp only [jsLowerAux, List.mem_append] at hy
    rcases hy with hy | hy
    · have hg := mapped_good b c rest y hy
      exact ⟨hg.1, hg.2.1⟩
    · exact ih (nextCtx b c) y hy

/-- The case conversion is the identity on strings of fixed, sigma-free
code points, whatever the context flag. -/
theorem jsLowerAux_fixed : ∀ l : List Nat,
    (∀ y ∈ l, lowerChar y = [y] ∧ y ≠ 931) → ∀ b, jsLowerAux b l = l := by
  intro l
  induction l with
  | nil => intro _ b; rfl
  | cons c rest ih =>
    intro h b
    obtain ⟨h1, h2⟩ := h c (List.mem_cons_self c rest)
    have hbeq : (c == 931) = false := beq_eq_false_iff_ne.mpr h2
    simp only [jsLowerAux, hbeq, Bool.false_eq_true, if_false, h1]
    rw [ih (fun y hy => h y (List.mem_cons_of_mem c hy)) (nextCtx b c)]
    rfl

/-- `String.prototype.toLowerCase` is idempotent. -/
theorem jsLower_jsLower (x : List Nat) : jsLower (jsLower x) = jsLower x :=
  jsLowerAux_fixed (jsLowerAux false x) (fun y hy => jsLowerAux_out_good x false y hy) false

/-- The case conversion of a non-empty string is non-empty. -/
theorem jsLowerAux_ne_nil (b : Bool) (c : Nat) (rest : List Nat) :
    jsLowerAux b (c :: rest) ≠ [] := by
  simp only [jsLowerAux]
  intro h
  exact mapped_ne_nil b c rest (List.append_eq_nil.mp h).1

/-- A string fixed by `dropWs` stays fixed by `dropWs` after case
conversion. -/
theorem dropWs_jsLowerAux (y : List Nat) (h : dropWs y = y) (b : Bool) :
    dropWs (jsLowerAux b y) = jsLowerAux b y := by
  cases y with
  | nil => rfl
  | cons c rest =>
    have hc := head_not_ws h
    cases hmap : (if c == 931 then sigmaLower b rest else lowerChar c) with
    | nil => exact absurd hmap (mapped_ne_nil b c rest)
    | cons m1 mrest =>
      have hm1 : isWs m1 = false := by
        have hg := (mapped_good b c rest m1 (by rw [hmap]; exact List.mem_cons_self _ _)).2.2
        cases hw : isWs m1
        · rfl
        · rw [hg hw] at hc
          exact Bool.noConfusion hc
      simp only [jsLowerAux, hmap, List.cons_append, dropWs, hm1]
      simp

/-- `trimRight` never lengthens a list. -/
theorem trimRight_length_le (l : List Nat) : (trimRight l).length ≤ l.length := by
  induction l with
  | nil => simp [trimRight]
  | cons c rest ih =>
    simp only [trimRight]
    split
    · simp
    · simp only [List.length_cons]
      omega

/-- A string fixed by `trim` is fixed by both of its halves. -/
theorem trim_fix_parts (y : List Nat) (h : trim y = y) :
    dropWs y = y ∧ trimRight y = y := by
  have hd : dropWs y = y := by
    cases y with
    | nil => rfl
    | cons c rest =>
      cases hw : isWs c with
      | false => simp [dropWs, hw]
      | true =>
        exfalso
        have h1 : trim (c :: rest) = trimRight (dropWs rest) := by
          unfold trim
          simp [dropWs, hw]
        rw [h1] at h
        have h2 := trimRight_length_le (dropWs rest)
        have h3 := dropWs_length_le rest
        have h4 := congrArg List.length h
        simp only [List.length_cons] at h4
        omega
  refine ⟨hd, ?_⟩
  have h5 : trim y = trimRight y := by
    unfold trim
    rw [hd]
  rw [← h5]
  exact h

/-- `trimRight` fixes a string with no whitespace at all. -/
theorem trimRight_of_no_ws (l : List Nat) (h : ∀ a ∈ l, isWs a = false) :
    trimRight l = l := by
  induction l with
  | nil => rfl
  | cons c rest ih =>
    have hc := h c (List.mem_cons_self c rest)
    simp only [trimRight, ih (fun a ha => h a (List.mem_cons_of_mem c ha))]
    simp [hc]

/-- Appending before a non-empty `trimRight`-fixed string preserves the
fixpoint. -/
theorem trimRight_append_of (l1 l2 : List Nat) (h2 : trimRight l2 = l2) (hne : l2 ≠ []) :
    trimRight (l1 ++ l2) = l1 ++ l2 := by
  induction l1 with
  | nil => simpa using h2
  | cons a t ih =>
    simp only [List.cons_append, trimRight, List.append_eq]
    rw [ih]
    have hie : (t ++ l2).isEmpty = false := by
      cases hx : t ++ l2 with
      | nil => exact absurd (List.append_eq_nil.mp hx).2 hne
      | cons => rfl
    simp [hie]

/-- A string fixed by `trimRight` stays fixed by `trimRight` after case
conversion. -/
theorem trimRight_jsLowerAux : ∀ y : List Nat, trimRight y = y → ∀ b,
    trimRight (jsLowerAux b y) = jsLowerAux b y := by
  intro y
  induction y with
  | nil => intro _ b; rfl
  | cons c rest ih =>
    intro h b
    have hcond : ¬ ((trimRight rest).isEmpty && isWs c) = true := by
      intro hx
      simp only [trimRight] at h
      rw [if_pos hx] at h
      exact List.cons_ne_nil c rest h.symm
    have hr : trimRight rest = rest := by
      simp only [trimRight] at h
      rw [if_neg hcond] at h
      simpa using h
    cases rest with
    | nil =>
      have hc : isWs c = false := by
        cases hw : isWs c with
        | false => rfl
        | true => exact absurd (by simp [trimRight, hw]) hcond
      simp only [jsLowerAux, List.append_nil]
      apply trimRight_of_no_ws
      intro a ha
      have hg := (mapped_good b c [] a ha).2.2
      cases hw : isWs a with
      | false => rfl
      | true =>
        rw [hg hw] at hc
        exact Bool.noConfusion hc
    | cons d ds =>
      have hne2 : jsLowerAux (nextCtx b c) (d :: ds) ≠ [] := jsLowerAux_ne_nil _ _ _
      simp only [jsLowerAux]
      exact trimRight_append_of _ _ (ih hr (nextCtx b c)) hne2

/-- A trimmed string stays trimmed after case conversion. -/
theorem trim_jsLower (y : List Nat) (h : trim y = y) : trim (jsLower y) = jsLower y := by
  obtain ⟨hd, ht⟩ := trim_fix_parts y h
  unfold trim jsLower
  rw [dropWs_jsLowerAux y hd false, trimRight_jsLowerAux y ht false]

/-- The `email` sanitizer is idempotent. -/
theorem emailSanitize_idem (x : List Nat) :
    emailSanitize (emailSanitize x) = emailSanitize x := by
  unfold emailSanitize
  rw [trim_jsLower (trim x) (trim_trim x), jsLower_jsLower]

/-- Every branch of the custom stage carries the sanitized value. -/
theorem checkCustom_sanitized (r : Rule) (s : List Nat) :
    (checkCustom r s).sanitizedValue = s := by
  unfold checkCustom
  cases r.additionalValidation
  · rfl
  · dsimp only
    split <;> rfl

/-- Every branch of the pattern stage carries the sanitized value. -/
theorem checkRulePattern_sanitized (r : Rule) (s : List Nat) :
    (checkRulePattern r s).sanitizedValue = s := by
  unfold checkRulePattern
  cases r.rulePattern
  · exact checkCustom_sanitized r s
  · dsimp only
    split
    · exact checkCustom_sanitized r s
    · rfl

/-- Every branch of the maximum-length stage carries the sanitized
value. -/
theorem checkMax_sanitized (f : List Nat) (r : Rule) (s : List Nat) :
    (checkMax f r s).sanitizedValue = s := by
  unfold checkMax
  cases r.maxLength
  · exact checkRulePattern_sanitized r s
  · dsimp only
    split
    · rfl
    · exact checkRulePattern_sanitized r s

/-- Every branch of the minimum-length stage carries the sanitized
value. -/
theorem checkMin_sanitized (f : List Nat) (r : Rule) (s : List Nat) :
    (checkMin f r s).sanitizedValue = s := by
  unfold checkMin
  cases r.minLength
  · exact checkMax_sanitized f r s
  · dsimp only
    split
    · rfl
    · exact checkMax_sanitized f r s

/-- Every branch of the check sequence carries the sanitized value. -/
theorem runChecks_sanitized (f : List Nat) (r : Rule) (s : List Nat) :
    (runChecks f r s).sanitizedValue = s := by
  unfold runChecks
  split
  · rfl
  · split
    · rfl
    · exact checkMin_sanitized f r s

/-- In the custom stage an error is present exactly when the result is
invalid. -/
theorem checkCustom_error_iff (r : Rule) (s : List Nat) :
    (checkCustom r s).error.isSome = !(checkCustom r s).valid := by
  unfold checkCustom
  cases hadd : r.additionalValidation
  · rfl
  · rename_i chk
    dsimp only
    by_cases h : jsTruthy (chk s) = true
    · cases hcs : chk s with
      | none => rw [hcs] at h; exact absurd h (by simp [jsTruthy])
      | some m => rw [hcs] at h; simp [h]
    · simp [h]

/-- In the pattern stage an error is present exactly when the result is
invalid. -/
theorem checkRulePattern_error_iff (r : Rule) (s : List Nat) :
    (checkRulePattern r s).error.isSome = !(checkRulePattern r s).valid := by
  unfold checkRulePattern
  cases r.rulePattern
  · exact checkCustom_error_iff r s
  · dsimp only
    split
    · exact checkCustom_error_iff r s
    · rfl

/-- In the maximum-length stage an error is present exactly when the
result is invalid. -/
theorem checkMax_error_iff (f : List Nat) (r : Rule) (s : List Nat) :
    (checkMax f r s).error.isSome = !(checkMax f r s).valid := by
  unfold checkMax
  cases r.maxLength
  · exact checkRulePattern_error_iff r s
  · dsimp only
    split
    · rfl
    · exact checkRulePattern_error_iff r s

/-- In the minimum-length stage an error is present exactly when the
result is invalid. -/
theorem checkMin_error_iff (f : List Nat) (r : Rule) (s : List Nat) :
    (checkMin f r s).error.isSome = !(checkMin f r s).valid := by
  unfold checkMin
  cases r.minLength
  · exact checkMax_error_iff f r s
  · dsimp only
    split
    · rfl
    · exact checkMax_error_iff f r s

/-- In the whole check sequence an error is present exactly when the
result is invalid. -/
theorem runChecks_error_iff (f : List Nat) (r : Rule) (s : List Nat) :
    (runChecks f r s).error.isSome = !(runChecks f r s).valid := by
  unfold runChecks
  split
  · rfl
  · split
    · rfl
    · exact checkMin_error_iff f r s

/-- A known field reduces `validateField` to the check sequence on the
sanitized value. -/
theorem validateField_eq_runChecks (f : List Nat) (r : Rule)
    (hr : VALIDATION_RULES f = some r) (v : List Nat) :
    validateField f v = runChecks f r (applySanitize r v) := by
  unfold validateField
  rw [hr]

/-- An unknown field passes the raw value through. -/
theorem validateField_unknown (f v : List Nat) (hr : VALIDATION_RULES f = none) :
    validateField f v = ⟨true, none, v⟩ := by
  unfold validateField
  rw [hr]

/-- When every set minimum is satisfied the minimum stage falls through
to the maximum stage. -/
theorem checkMin_skip (f : List Nat) (r : Rule) (s : List Nat)
    (h : ∀ mn, r.minLength = some mn → mn ≤ jsLen s) :
    checkMin f r s = checkMax f r s := by
  unfold checkMin
  cases hm : r.minLength
  · rfl
  · rename_i mn
    dsimp only
    rw [if_neg (by have hx := h mn hm; omega)]

/-- A violated set minimum makes the minimum stage fail with the
interpolated at-least message. -/
theorem checkMin_fire (f : List Nat) (r : Rule) (s : List Nat) (mn : Nat)
    (hm : r.minLength = some mn) (h : jsLen s < mn) :
    checkMin f r s =
      ⟨false,
       some (formatFieldName f ++ cp (" must be at least ") ++ natStr mn ++
             cp (" characters")), s⟩ := by
  unfold checkMin
  rw [hm]
  dsimp only
  rw [if_pos h]

/-- When every set maximum is satisfied the maximum stage falls through
to the pattern stage. -/
theorem checkMax_skip (f : List Nat) (r : Rule) (s : List Nat)
    (h : ∀ mx, r.maxLength = some mx → jsLen s ≤ mx) :
    checkMax f r s = checkRulePattern r s := by
  unfold checkMax
  cases hm : r.maxLength
  · rfl
  · rename_i mx
    dsimp only
    rw [if_neg (by have hx := h mx hm; omega)]

/-- A violated set maximum makes the maximum stage fail with the
interpolated not-exceed message. -/
theorem checkMax_fire (f : List Nat) (r : Rule) (s : List Nat) (mx : Nat)
    (hm : r.maxLength = some mx) (h : mx < jsLen s) :
    checkMax f r s =
      ⟨false,
       some (formatFieldName f ++ cp (" must not exceed ") ++ natStr mx ++
             cp (" characters")), s⟩ := by
  unfold checkMax
  rw [hm]
  dsimp only
  rw [if_pos h]

/-- A passing (or absent) pattern falls through to the custom stage. -/
theorem checkRulePattern_skip (r : Rule) (s : List Nat)
    (h : ∀ p, r.rulePattern = some p → p s = true) :
    checkRulePattern r s = checkCustom r s := by
  unfold checkRulePattern
  cases hp : r.rulePattern
  · rfl
  · rename_i p
    dsimp only
    rw [if_pos (h p hp)]

/-- A failing set pattern reports the rule's default message. -/
theorem checkRulePattern_fire (r : Rule) (s : List Nat) (p : List Nat → Bool)
    (hp : r.rulePattern = some p) (h : p s = false) :
    checkRulePattern r s = ⟨false, some r.message, s⟩ := by
  unfold checkRulePattern
  rw [hp]
  dsimp only
  rw [if_neg (by simp [h])]

/-- A truthy custom-check result fails with that result as the error. -/
theorem checkCustom_fire (r : Rule) (s : List Nat)
    (chk : List Nat → Option (List Nat)) (hc : r.additionalValidation = some chk)
    (h : jsTruthy (chk s) = true) :
    checkCustom r s = ⟨false, chk s, s⟩ := by
  unfold checkCustom
  rw [hc]
  dsimp only
  rw [if_pos h]

/-- A falsy (or absent) custom check yields the all-passed result. -/
theorem checkCustom_pass (r : Rule) (s : List Nat)
    (h : ∀ chk, r.additionalValidation = some chk → jsTruthy (chk s) = false) :
    checkCustom r s = ⟨true, none, s⟩ := by
  unfold checkCustom
  cases hc : r.additionalValidation
  · rfl
  · rename_i chk
    dsimp only
    rw [if_neg (by simp [h chk hc])]

/-- An empty sanitized value of a required rule fails with the
is-required message. -/
theorem runChecks_required (f : List Nat) (r : Rule) (s : List Nat)
    (hreq : r.required = true) (hs : s = []) :
    runChecks f r s = ⟨false, some (formatFieldName f ++ cp (" is required")), s⟩ := by
  subst hs
  unfold runChecks
  rw [hreq]
  simp [List.isEmpty]

/-- An empty sanitized value of an optional rule succeeds with no
further checks. -/
theorem runChecks_optional_empty (f : List Nat) (r : Rule) (s : List Nat)
    (hreq : r.required = false) (hs : s = []) :
    runChecks f r s = ⟨true, none, s⟩ := by
  subst hs
  unfold runChecks
  rw [hreq]
  simp [List.isEmpty]

/-- A non-empty sanitized value reaches the length checks. -/
theorem runChecks_nonempty (f : List Nat) (r : Rule) (s : List Nat) (hs : s ≠ []) :
    runChecks f r s = checkMin f r s := by
  unfold runChecks
  have hie : s.isEmpty = false := by
    cases s
    · exact absurd rfl hs
    · rfl
  simp [hie]

/-- The minimum-length stage either fires, with its witness bound, or
falls through with every set minimum satisfied. -/
theorem checkMin_cases (f : List Nat) (r : Rule) (s : List Nat) :
    (∃ mn, r.minLength = some mn ∧ jsLen s < mn ∧
      checkMin f r s = ⟨false, some (atLeastMsg f mn), s⟩) ∨
    ((∀ mn, r.minLength = some mn → mn ≤ jsLen s) ∧
      checkMin f r s = checkMax f r s) := by
  cases hm : r.minLength with
  | none =>
    right
    constructor
    · intro mn h
      exact Option.noConfusion h
    · exact checkMin_skip f r s fun mn h => by
        rw [hm] at h
        exact Option.noConfusion h
  | some mn =>
    by_cases h : jsLen s < mn
    · left
      exact ⟨mn, rfl, h, checkMin_fire f r s mn hm h⟩
    · right
      constructor
      · intro mn' h'
        injection h' with h''
        subst h''
        omega
      · apply checkMin_skip f r s
        intro mn' h'
        rw [hm] at h'
        injection h' with h''
        subst h''
        omega

/-- The maximum-length stage either fires, with its witness bound, or
falls through with every set maximum satisfied. -/
theorem checkMax_cases (f : List Nat) (r : Rule) (s : List Nat) :
    (∃ mx, r.maxLength = some mx ∧ mx < jsLen s ∧
      checkMax f r s = ⟨false, some (notExceedMsg f mx), s⟩) ∨
    ((∀ mx, r.maxLength = some mx → jsLen s ≤ mx) ∧
      checkMax f r s = checkRulePattern r s) := by
  cases hm : r.maxLength with
  | none =>
    right
    constructor
    · intro mx h
      exact Option.noConfusion h
    · exact checkMax_skip f r s fun mx h => by
        rw [hm] at h
        exact Option.noConfusion h
  | some mx =>
    by_cases h : mx < jsLen s
    · left
      exact ⟨mx, rfl, h, checkMax_fire f r s mx hm h⟩
    · right
      constructor
      · intro mx' h'
        injection h' with h''
        subst h''
        omega
      · apply checkMax_skip f r s
        intro mx' h'
        rw [hm] at h'
        injection h' with h''
        subst h''
        omega

/-- The pattern stage either fires with the rule's default message or
falls through to the custom stage. -/
theorem checkRulePattern_cases (r : Rule) (s : List Nat) :
    (∃ p, r.rulePattern = some p ∧
      checkRulePattern r s = ⟨false, some r.message, s⟩) ∨
    checkRulePattern r s = checkCustom r s := by
  cases hp : r.rulePattern with
  | none =>
    exact Or.inr (checkRulePattern_skip r s fun p h => by
      rw [hp] at h
      exact Option.noConfusion h)
  | some p =>
    by_cases h : p s = true
    · refine Or.inr (checkRulePattern_skip r s ?_)
      intro p' h'
      rw [hp] at h'
      injection h' with h''
      subst h''
      exact h
    · rw [Bool.not_eq_true] at h
      exact Or.inl ⟨p, rfl, checkRulePattern_fire r s p hp h⟩

/-- The custom stage either succeeds outright or fires with a truthy
message from the rule's custom check. -/
theorem checkCustom_cases (r : Rule) (s : List Nat) :
    checkCustom r s = ⟨true, none, s⟩ ∨
    (∃ chk, r.additionalValidation = some chk ∧ jsTruthy (chk s) = true ∧
      checkCustom r s = ⟨false, chk s, s⟩) := by
  cases hc : r.additionalValidation with
  | none =>
    exact Or.inl (checkCustom_pass r s fun chk h => by
      rw [hc] at h
      exact Option.noConfusion h)
  | some chk =>
    by_cases h : jsTruthy (chk s) = true
    · exact Or.inr ⟨chk, rfl, h, checkCustom_fire r s chk hc h⟩
    · refine Or.inl (checkCustom_pass r s ?_)
      intro chk' h'
      rw [hc] at h'
      injection h' with h''
      subst h''
      rw [Bool.not_eq_true] at h
      exact h

/-- The `email` custom check emits one of its two literal messages. -/
theorem emailAdditional_shapes (s e : List Nat) (h : emailAdditional s = some e) :
    e = cp ("Email cannot contain consecutive dots") ∨
    e = cp ("Email local part too long") := by
  simp only [emailAdditional] at h
  split_ifs at h
  · exact Or.inl (Option.some.inj h).symm
  · exact Or.inr (Option.some.inj h).symm

/-- The `phone` custom check emits one of its two literal messages. -/
theorem phoneAdditional_shapes (s e : List Nat) (h : phoneAdditional s = some e) :
    e = cp ("Phone number must contain at least 10 digits") ∨
    e = cp ("Phone number must not exceed 15 digits") := by
  simp only [phoneAdditional] at h
  split_ifs at h
  · exact Or.inl (Option.some.inj h).symm
  · exact Or.inr (Option.some.inj h).symm

/-- The `message` custom check emits one of its two literal messages. -/
theorem messageAdditional_shapes (s e : List Nat) (h : messageAdditional s = some e) :
    e = cp ("Message contains too many links") ∨
    e = cp ("Message contains prohibited content") := by
  simp only [messageAdditional] at h
  split_ifs at h
  · exact Or.inl (Option.some.inj h).symm
  · exact Or.inr (Option.some.inj h).symm
  · exact Or.inr (Option.some.inj h).symm

/-- On a non-empty sanitized value, the check sequence returns the
minimum-length error exactly when the UTF-16 unit count is below the set
minimum — given that no other possible error of the rule collides with
that message. -/
theorem runChecks_min_iff (f : List Nat) (r : Rule) (s : List Nat) (hne : s ≠ [])
    (mn : Nat) (hmn : r.minLength = some mn)
    (hd1 : ∀ mx, r.maxLength = some mx → notExceedMsg f mx ≠ atLeastMsg f mn)
    (hd2 : ∀ p, r.rulePattern = some p → r.message ≠ atLeastMsg f mn)
    (hd3 : ∀ chk, r.additionalValidation = some chk → ∀ e, chk s = some e →
      e ≠ atLeastMsg f mn) :
    (runChecks f r s = ⟨false, some (atLeastMsg f mn), s⟩ ↔ jsLen s < mn) := by
  constructor
  · intro heq
    by_contra hnot
    rw [Nat.not_lt] at hnot
    have hskip : checkMin f r s = checkMax f r s := by
      apply checkMin_skip
      intro mn' h'
      rw [hmn] at h'
      injection h' with h''
      subst h''
      exact hnot
    rw [runChecks_nonempty f r s hne, hskip] at heq
    rcases checkMax_cases f r s with ⟨mx, hmx, _, hfire⟩ | ⟨_, hskip2⟩
    · rw [hfire] at heq
      have hh := congrArg FieldResult.error heq
      simp only [Option.some.injEq] at hh
      exact hd1 mx hmx hh
    · rw [hskip2] at heq
      rcases checkRulePattern_cases r s with ⟨p, hp, hfire⟩ | hskip3
      · rw [hfire] at heq
        have hh := congrArg FieldResult.error heq
        simp only [Option.some.injEq] at hh
        exact hd2 p hp hh
      · rw [hskip3] at heq
        rcases checkCustom_cases r s with hok | ⟨chk, hchk, htr, hfire⟩
        · rw [hok] at heq
          have hh := congrArg FieldResult.valid heq
          simp at hh
        · rw [hfire] at heq
          have hh := congrArg FieldResult.error heq
          cases hcs : chk s with
          | none => rw [hcs] at htr; exact absurd htr (by simp [jsTruthy])
          | some e =>
            rw [hcs] at hh
            simp only [Option.some.injEq] at hh
            exact hd3 chk hchk e hcs hh
  · intro hlt
    rw [runChecks_nonempty f r s hne]
    exact checkMin_fire f r s mn hmn hlt

/-- On a non-empty sanitized value, the check sequence returns the
maximum-length error exactly when every set minimum is met and the
UTF-16 unit count is above the set maximum — given that no other
possible error of the rule collides with that message. -/
theorem runChecks_max_iff (f : List Nat) (r : Rule) (s : List Nat) (hne : s ≠ [])
    (mx : Nat) (hmx : r.maxLength = some mx)
    (hd1 : ∀ mn, r.minLength = some mn → atLeastMsg f mn ≠ notExceedMsg f mx)
    (hd2 : ∀ p, r.rulePattern = some p → r.message ≠ notExceedMsg f mx)
    (hd3 : ∀ chk, r.additionalValidation = some chk → ∀ e, chk s = some e →
      e ≠ notExceedMsg f mx) :
    (runChecks f r s = ⟨false, some (notExceedMsg f mx), s⟩ ↔
      ((∀ mn, r.minLength = some mn → mn ≤ jsLen s) ∧ mx < jsLen s)) := by
  constructor
  · intro heq
    rw [runChecks_nonempty f r s hne] at heq
    rcases checkMin_cases f r s with ⟨mn, hmn, _, hfire⟩ | ⟨hminok, hskip⟩
    · rw [hfire] at heq
      have hh := congrArg FieldResult.error heq
      simp only [Option.some.injEq] at hh
      exact absurd hh (hd1 mn hmn)
    · rw [hskip] at heq
      rcases checkMax_cases f r s with ⟨mx', hmx', hlt', _⟩ | ⟨hmaxok, hskip2⟩
      · rw [hmx] at hmx'
        injection hmx' with h''
        subst h''
        exact ⟨hminok, hlt'⟩
      · exfalso
        rw [hskip2] at heq
        rcases checkRulePattern_cases r s with ⟨p, hp, hfire⟩ | hskip3
        · rw [hfire] at heq
          have hh := congrArg FieldResult.error heq
          simp only [Option.some.injEq] at hh
          exact hd2 p hp hh
        · rw [hskip3] at heq
          rcases checkCustom_cases r s with hok | ⟨chk, hchk, htr, hfire⟩
          · rw [hok] at heq
            have hh := congrArg FieldResult.valid heq
            simp at hh
          · rw [hfire] at heq
            have hh := congrArg FieldResult.error heq
            cases hcs : chk s with
            | none => rw [hcs] at htr; exact absurd htr (by simp [jsTruthy])
            | some e =>
              rw [hcs] at hh
              simp only [Option.some.injEq] at hh
              exact hd3 chk hchk e hcs hh
  · rintro ⟨hminok, hlt⟩
    rw [runChecks_nonempty f r s hne, checkMin_skip f r s hminok]
    exact checkMax_fire f r s mx hmx hlt

/-- Componentwise description of the `validateForm` loop: the validity
conjunction, the error keys and the sanitized-data keys over any field
list. -/
theorem validateFormGo_spec (fd : List Nat → Option (List Nat)) (fs : List (List Nat)) :
    (validateFormGo fd fs).1 = fs.all (fun f => (validateField f (getOr fd f)).valid) ∧
    (validateFormGo fd fs).2.1.map Prod.fst =
      fs.filter (fun f => !(validateField f (getOr fd f)).valid) ∧
    (validateFormGo fd fs).2.2.map Prod.fst = fs := by
  induction fs with
  | nil => exact ⟨rfl, rfl, rfl⟩
  | cons f rest ih =>
    obtain ⟨ih1, ih2, ih3⟩ := ih
    refine ⟨?_, ?_, ?_⟩
    · simp [validateFormGo, ih1]
    · by_cases hv : (validateField f (getOr fd f)).valid = true
      · simp [validateFormGo, hv, ih2]
      · rw [Bool.not_eq_true] at hv
        simp [validateFormGo, hv, ih2]
    · simp [validateFormGo, ih3]

/-- The loop result is unchanged between two records that read the same
on the scanned fields. -/
theorem validateFormGo_congr (fd1 fd2 : List Nat → Option (List Nat))
    (fs : List (List Nat)) (h : ∀ f ∈ fs, getOr fd1 f = getOr fd2 f) :
    validateFormGo fd1 fs = validateFormGo fd2 fs := by
  induction fs with
  | nil => rfl
  | cons f rest ih =>
    have hf := h f (List.mem_cons_self f rest)
    have hrest := ih fun g hg => h g (List.mem_cons_of_mem f hg)
    simp [validateFormGo, hf, hrest]

/-- `validateFieldsFast` returns `null` exactly when every entry passes
`validateField`. -/
theorem validateFieldsFast_none_iff (l : List (List Nat × List Nat)) :
    validateFieldsFast l = none ↔ ∀ p ∈ l, (validateField p.1 p.2).valid = true := by
  induction l with
  | nil => simp [validateFieldsFast]
  | cons hd tl ih =>
    obtain ⟨f, v⟩ := hd
    by_cases hv : (validateField f v).valid = true
    · simp [validateFieldsFast, hv, ih]
    · rw [Bool.not_eq_true] at hv
      simp [validateFieldsFast, hv]

/-- With pairwise-distinct keys, a recorded entry is what lookup
returns. -/
theorem lookupEntry_of_mem (l : List (List Nat × List Nat)) (f v : List Nat)
    (hnd : (l.map Prod.fst).Nodup) (hmem : (f, v) ∈ l) :
    lookupEntry l f = some v := by
  induction l with
  | nil => cases hmem
  | cons hd tl ih =>
    obtain ⟨g, w⟩ := hd
    simp only [List.map_cons, List.nodup_cons] at hnd
    rcases List.mem_cons.mp hmem with heq | htl
    · cases heq
      simp [lookupEntry]
    · have hgf : g ≠ f := by
        intro hxy
        subst hxy
        exact hnd.1 (List.mem_map.mpr ⟨(g, v), htl, rfl⟩)
      simp [lookupEntry, hgf, ih hnd.2 htl]

/-- A non-null `validateFieldsFast` result is the spread of a recorded
entry's invalid `validateField` result. -/
theorem validateFieldsFast_some (l : List (List Nat × List Nat)) (r : FastResult)
    (h : validateFieldsFast l = some r) :
    r.valid = false ∧ ∃ v, (r.fieldName, v) ∈ l ∧
      validateField r.fieldName v = ⟨false, r.error, r.sanitizedValue⟩ := by
  induction l with
  | nil => cases h
  | cons hd tl ih =>
    obtain ⟨f, v⟩ := hd
    by_cases hv : (validateField f v).valid = true
    · simp only [validateFieldsFast, hv, if_true] at h
      obtain ⟨h1, v2, hm, he⟩ := ih h
      exact ⟨h1, v2, List.mem_cons_of_mem _ hm, he⟩
    · rw [Bool.not_eq_true] at hv
      simp only [validateFieldsFast, hv, Bool.false_eq_true, if_false,
        Option.some.injEq] at h
      subst h
      refine ⟨rfl, v, List.mem_cons_self _ _, ?_⟩
      cases hres : validateField f v with
      | mk a b c =>
        rw [hres] at hv
        simp only at hv
        simp [hv]

/-- With `lastIndex` zero the position-indexed script search succeeds
exactly when the plain search does. -/
theorem scFind_zero_isSome (l : List Nat) : ∀ pos : Nat,
    (scFindFromAux 0 pos l).isSome = hasScriptIn l := by
  induction l with
  | nil => intro pos; rfl
  | cons c rest ih =>
    intro pos
    simp only [scFindFromAux, hasScriptIn, Nat.zero_le, decide_eq_true_eq, Bool.true_and]
    by_cases hm : matchesCI scPat (c :: rest) = true
    · simp [hm]
    · rw [Bool.not_eq_true] at hm
      simp [hm, ih (pos + 1)]

/-- With `lastIndex` zero the position-indexed keyword search succeeds
exactly when the plain scan does, for either value of the
previous-word flag. -/
theorem kwFind_zero_isSome (l : List Nat) : ∀ (prev : Bool) (pos : Nat),
    (kwFindFromAux 0 prev pos l).isSome = hasSpamWordAux prev l := by
  induction l with
  | nil => intro prev pos; rfl
  | cons c rest ih =>
    intro prev pos
    simp only [kwFindFromAux, hasSpamWordAux, Nat.zero_le, decide_eq_true_eq, Bool.true_and]
    cases prev with
    | false =>
      cases hk : kwEndAt (c :: rest) with
      | none => simp [hk, ih (isWordChar c) (pos + 1)]
      | some len => simp [hk]
    | true => simp [ih (isWordChar c) (pos + 1)]

/-- The state-threaded message check equals the pure one: each per-call
regex starts at `lastIndex` zero, where the global-flagged `test` is a
plain search. -/
theorem messageAdditionalStateful_eq (v : List Nat) :
    messageAdditionalStateful v = messageAdditional v := by
  unfold messageAdditionalStateful messageAdditional scTestG kwTestG
  have hguard : ¬ v.length < 0 := Nat.not_lt_zero _
  rw [if_neg hguard, if_neg hguard]
  by_cases hurl : 2 < countUrls v
  · simp [hurl]
  · cases hx : scFindFromAux 0 0 v with
    | some e =>
      have hsc : hasScriptIn v = true := by
        rw [← scFind_zero_isSome v 0, hx]
        rfl
      simp [hurl, hx, hsc]
    | none =>
      have hsc : hasScriptIn v = false := by
        rw [← scFind_zero_isSome v 0, hx]
        rfl
      cases hy : kwFindFromAux 0 false 0 v with
      | some e =>
        have hkw : hasSpamWord v = true := by
          unfold hasSpamWord
          rw [← kwFind_zero_isSome v false 0, hy]
          rfl
        simp [hurl, hx, hy, hsc, hkw]
      | none =>
        have hkw : hasSpamWord v = false := by
          unfold hasSpamWord
          rw [← kwFind_zero_isSome v false 0, hy]
          rfl
        simp [hurl, hx, hy, hsc, hkw]

/-- The two `message` rules agree. -/
theorem messageRuleS_eq : messageRuleS = messageRule := by
  unfold messageRuleS messageRule
  rw [show messageAdditionalStateful = messageAdditional from
    funext messageAdditionalStateful_eq]

/-- Claim C5: for every field in the rule table, applying that field's
sanitizer twice yields the same result as applying it once — the
trim-and-collapse sanitizer of `name` and `message`, the
trim-and-lowercase sanitizer of `email` and the plain trim of `phone`
and `service` are all idempotent. -/
theorem c5_sanitize_idempotent (f : List Nat) (r : Rule)
    (hr : VALIDATION_RULES f = some r) (x : List Nat) :
    applySanitize r (applySanitize r x) = applySanitize r x := by
  unfold VALIDATION_RULES at hr
  split_ifs at hr
  · cases hr
    simpa [applySanitize, nameRule] using nameSanitize_idem x
  · cases hr
    simpa [applySanitize, emailRule] using emailSanitize_idem x
  · cases hr
    simpa [applySanitize, phoneRule, phoneSanitize] using trim_trim x
  · cases hr
    simpa [applySanitize, serviceRule, serviceSanitize] using trim_trim x
  · cases hr
    simpa [applySanitize, messageRule, messageSanitize, nameSanitize]
      using nameSanitize_idem x

/-- Witness for C5 at the `email` rule and a concrete raw value. -/
theorem c5_witness :
    applySanitize emailRule (applySanitize emailRule (cp ("  A b  "))) =
      applySanitize emailRule (cp ("  A b  ")) :=
  c5_sanitize_idempotent (cp ("email")) emailRule rfl (cp ("  A b  "))

/-- Claim C6: for every field name (known or unknown) and raw value, the
`FieldResult` of `validateField` carries an error exactly when its valid
flag is false. -/
theorem c6_error_iff_invalid (f v : List Nat) :
    (validateField f v).error ≠ none ↔ (validateField f v).valid = false := by
  have h : (validateField f v).error.isSome = !(validateField f v).valid := by
    unfold validateField
    cases hr : VALIDATION_RULES f
    · rfl
    · rename_i rules
      exact runChecks_error_iff f rules (applySanitize rules v)
  cases he : (validateField f v).error <;>
    cases hval : (validateField f v).valid <;>
      rw [he, hval] at h <;> simp_all

/-- Claim C3 counterexample: for the unknown field `company` and the raw
value `" a "`, `validateField` returns the raw value itself, not its
trimmed form, as the sanitized value. -/
theorem c3_counterexample :
    ¬ ((validateField (cp ("company")) (cp (" a "))).sanitizedValue =
         trim (cp (" a "))) := by decide

/-- Claim C3 as amended: for every field name outside the rule table and
every raw value, `validateField` returns valid, no error, and the raw
value passed through unchanged (the source's unknown-field branch does
not trim). -/
theorem c3_unknown_field_passthrough (f v : List Nat)
    (hr : VALIDATION_RULES f = none) :
    validateField f v = ⟨true, none, v⟩ :=
  validateField_unknown f v hr

/-- Witness for the amended C3 at the unknown field `company`. -/
theorem c3_witness :
    validateField (cp ("company")) (cp (" a ")) = ⟨true, none, cp (" a ")⟩ :=
  c3_unknown_field_passthrough (cp ("company")) (cp (" a ")) rfl

/-- Claim C2: for every rule-table field and raw value, `validateField`
sanitizes first and then runs the checks on the sanitized value only, in
the fixed order required, optional-and-empty, minimum length, maximum
length, pattern, custom check, short-circuiting at the first failure; in
particular an empty required sanitized value fails with the is-required
message (never a length message) and an empty optional one succeeds
immediately. -/
theorem c2_field_evaluator_pipeline (f : List Nat) (r : Rule)
    (hr : VALIDATION_RULES f = some r) (v : List Nat) :
    validateField f v = runChecks f r (applySanitize r v) ∧
    (validateField f v).sanitizedValue = applySanitize r v ∧
    (r.required = true → applySanitize r v = [] →
      validateField f v =
        ⟨false, some (formatFieldName f ++ cp (" is required")), applySanitize r v⟩) ∧
    (r.required = false → applySanitize r v = [] →
      validateField f v = ⟨true, none, applySanitize r v⟩) ∧
    (∀ mn, r.minLength = some mn → applySanitize r v ≠ [] →
      jsLen (applySanitize r v) < mn →
      validateField f v =
        ⟨false, some (formatFieldName f ++ cp (" must be at least ") ++ natStr mn ++
          cp (" characters")), applySanitize r v⟩) ∧
    (∀ mx, r.maxLength = some mx → applySanitize r v ≠ [] →
      (∀ mn, r.minLength = some mn → mn ≤ jsLen (applySanitize r v)) →
      mx < jsLen (applySanitize r v) →
      validateField f v =
        ⟨false, some (formatFieldName f ++ cp (" must not exceed ") ++ natStr mx ++
          cp (" characters")), applySanitize r v⟩) ∧
    (∀ p, r.rulePattern = some p → applySanitize r v ≠ [] →
      (∀ mn, r.minLength = some mn → mn ≤ jsLen (applySanitize r v)) →
      (∀ mx, r.maxLength = some mx → jsLen (applySanitize r v) ≤ mx) →
      p (applySanitize r v) = false →
      validateField f v = ⟨false, some r.message, applySanitize r v⟩) ∧
    (∀ chk, r.additionalValidation = some chk → applySanitize r v ≠ [] →
      (∀ mn, r.minLength = some mn → mn ≤ jsLen (applySanitize r v)) →
      (∀ mx, r.maxLength = some mx → jsLen (applySanitize r v) ≤ mx) →
      (∀ p, r.rulePattern = some p → p (applySanitize r v) = true) →
      jsTruthy (chk (applySanitize r v)) = true →
      validateField f v = ⟨false, chk (applySanitize r v), applySanitize r v⟩) ∧
    (applySanitize r v ≠ [] →
      (∀ mn, r.minLength = some mn → mn ≤ jsLen (applySanitize r v)) →
      (∀ mx, r.maxLength = some mx → jsLen (applySanitize r v) ≤ mx) →
      (∀ p, r.rulePattern = some p → p (applySanitize r v) = true) →
      (∀ chk, r.additionalValidation = some chk →
        jsTruthy (chk (applySanitize r v)) = false) →
      validateField f v = ⟨true, none, applySanitize r v⟩) := by
  have hvf := validateField_eq_runChecks f r hr v
  refine ⟨hvf, ?_, ?_, ?_, ?_, ?_, ?_, ?_, ?_⟩
  · rw [hvf]
    exact runChecks_sanitized f r _
  · intro hreq hse
    rw [hvf]
    exact runChecks_required f r _ hreq hse
  · intro hreq hse
    rw [hvf]
    exact runChecks_optional_empty f r _ hreq hse
  · intro mn hmn hne hlt
    rw [hvf, runChecks_nonempty f r _ hne, checkMin_fire f r _ mn hmn hlt]
  · intro mx hmx hne hminok hgt
    rw [hvf, runChecks_nonempty f r _ hne, checkMin_skip f r _ hminok,
        checkMax_fire f r _ mx hmx hgt]
  · intro p hp hne hminok hmaxok hpf
    rw [hvf, runChecks_nonempty f r _ hne, checkMin_skip f r _ hminok,
        checkMax_skip f r _ hmaxok, checkRulePattern_fire r _ p hp hpf]
  · intro chk hchk hne hminok hmaxok hpat htr
    rw [hvf, runChecks_nonempty f r _ hne, checkMin_skip f r _ hminok,
        checkMax_skip f r _ hmaxok, checkRulePattern_skip r _ hpat,
        checkCustom_fire r _ chk hchk htr]
  · intro hne hminok hmaxok hpat hcust
    rw [hvf, runChecks_nonempty f r _ hne, checkMin_skip f r _ hminok,
        checkMax_skip f r _ hmaxok, checkRulePattern_skip r _ hpat,
        checkCustom_pass r _ hcust]

/-- Witness for C2: a required field whose sanitized value is empty
fails with the is-required message, not a length message. -/
theorem c2_witness :
    validateField (cp ("name")) (cp (" ")) =
      ⟨false, some (cp ("Name is required")), []⟩ := by
  have h := (c2_field_evaluator_pipeline (cp ("name")) nameRule rfl (cp (" "))).2.2.1
    rfl (by decide)
  exact h.trans (by decide)

/-- Claim C1: for every record, `validateForm`'s valid flag is the
conjunction of the per-field valid flags over the rule-table fields, its
error keys are exactly the invalid rule-table fields, and its
sanitized-data keys are exactly the full rule-table field list
`name, email, phone, service, message`, regardless of validity. -/
theorem c1_validateForm_aggregation (fd : List Nat → Option (List Nat)) :
    (validateForm fd).valid =
      FORM_FIELDS.all (fun f => (validateField f (getOr fd f)).valid) ∧
    (validateForm fd).errors.map Prod.fst =
      FORM_FIELDS.filter (fun f => !(validateField f (getOr fd f)).valid) ∧
    (validateForm fd).sanitizedData.map Prod.fst = FORM_FIELDS :=
  validateFormGo_spec fd FORM_FIELDS

/-- Claim C8: `validateForm` reads a record only through
`formData[fieldName] || ''` on the rule-table fields, so two records
that agree there — treating absent and empty alike — yield the same
`FormResult`; unknown keys are ignored. -/
theorem c8_record_agreement (fd1 fd2 : List Nat → Option (List Nat))
    (h : ∀ f ∈ FORM_FIELDS, getOr fd1 f = getOr fd2 f) :
    validateForm fd1 = validateForm fd2 := by
  unfold validateForm
  rw [validateFormGo_congr fd1 fd2 FORM_FIELDS h]

/-- Witness for C8: a record missing four fields versus one mapping them
to empty strings and carrying an extra unknown key. -/
theorem c8_witness :
    validateForm (fun k => if k = cp ("name") then some (cp ("Jo")) else none) =
      validateForm (fun k =>
        if k = cp ("name") then some (cp ("Jo"))
        else if k = cp ("extra") then some (cp ("zzz"))
        else some []) :=
  c8_record_agreement _ _ (by decide)

/-- Claim C9: `validateField` is deterministic — with the per-call
construction of the message rule's global-flagged regexes and their
`lastIndex` state modelled explicitly, every invocation computes the
pure `validateField`, so two invocations with the same arguments return
the same `FieldResult`. -/
theorem c9_deterministic (f v : List Nat) :
    validateFieldStateful f v = validateField f v := by
  unfold validateFieldStateful validateField VALIDATION_RULES_S VALIDATION_RULES
  rw [messageRuleS_eq]

/-- Claim C4 counterexample: 51 copies of `U+10000` sanitize to
themselves, 51 code points — within every length bound of the `name`
rule — yet the evaluator rejects them with the maximum-length message,
because the source compares `String.prototype.length`, the UTF-16
code-unit count (here 102), not the code-point count. -/
theorem c4_counterexample :
    (nameSanitize (List.replicate 51 65536)).length ≤ 100 ∧
    validateField (cp ("name")) (List.replicate 51 65536) =
      ⟨false, some (cp ("Name must not exceed 100 characters")),
       List.replicate 51 65536⟩ :=
  ⟨by decide, by decide⟩

/-- Claim C4 as amended: for every rule-table field and both of its
length bounds, the quantity compared against `minLength` and `maxLength`
is the UTF-16 code-unit count `jsLen` of the sanitized value — on a
non-empty sanitized value the evaluator returns the at-least error
exactly when the unit count is below the field's set minimum, and the
not-exceed error exactly when every set minimum is met and the unit
count is above the field's set maximum. -/
theorem c4_utf16_length_semantics (f : List Nat) (r : Rule)
    (hr : VALIDATION_RULES f = some r) (v : List Nat)
    (hne : applySanitize r v ≠ []) :
    (∀ mn, r.minLength = some mn →
      (validateField f v = ⟨false, some (atLeastMsg f mn), applySanitize r v⟩ ↔
        jsLen (applySanitize r v) < mn)) ∧
    (∀ mx, r.maxLength = some mx →
      (validateField f v = ⟨false, some (notExceedMsg f mx), applySanitize r v⟩ ↔
        ((∀ mn, r.minLength = some mn → mn ≤ jsLen (applySanitize r v)) ∧
          mx < jsLen (applySanitize r v)))) := by
  have hvf := validateField_eq_runChecks f r hr v
  unfold VALIDATION_RULES at hr
  split_ifs at hr with h1 h2 h3 h4 h5
  · cases hr
    subst h1
    constructor
    · intro mn hmn
      rw [show nameRule.minLength = some 2 from rfl] at hmn
      injection hmn with hmn2
      subst hmn2
      rw [hvf]
      apply runChecks_min_iff (cp ("name")) nameRule _ hne 2 rfl
      · intro mx hmx
        rw [show nameRule.maxLength = some 100 from rfl] at hmx
        injection hmx with hmx2
        subst hmx2
        decide
      · intro p hp
        decide
      · intro chk hchk
        rw [show nameRule.additionalValidation = none from rfl] at hchk
        exact Option.noConfusion hchk
    · intro mx hmx
      rw [show nameRule.maxLength = some 100 from rfl] at hmx
      injection hmx with hmx2
      subst hmx2
      rw [hvf]
      apply runChecks_max_iff (cp ("name")) nameRule _ hne 100 rfl
      · intro mn hmn
        rw [show nameRule.minLength = some 2 from rfl] at hmn
        injection hmn with hmn2
        subst hmn2
        decide
      · intro p hp
        decide
      · intro chk hchk
        rw [show nameRule.additionalValidation = none from rfl] at hchk
        exact Option.noConfusion hchk
  · cases hr
    subst h2
    constructor
    · intro mn hmn
      rw [show emailRule.minLength = none from rfl] at hmn
      exact Option.noConfusion hmn
    · intro mx hmx
      rw [show emailRule.maxLength = some 254 from rfl] at hmx
      injection hmx with hmx2
      subst hmx2
      rw [hvf]
      apply runChecks_max_iff (cp ("email")) emailRule _ hne 254 rfl
      · intro mn hmn
        rw [show emailRule.minLength = none from rfl] at hmn
        exact Option.noConfusion hmn
      · intro p hp
        decide
      · intro chk hchk
        rw [show emailRule.additionalValidation = some emailAdditional from rfl] at hchk
        injection hchk with hchk2
        subst hchk2
        intro e he
        rcases emailAdditional_shapes _ e he with h | h <;> subst h <;> decide
  · cases hr
    subst h3
    constructor
    · intro mn hmn
      rw [show phoneRule.minLength = some 10 from rfl] at hmn
      injection hmn with hmn2
      subst hmn2
      rw [hvf]
      apply runChecks_min_iff (cp ("phone")) phoneRule _ hne 10 rfl
      · intro mx hmx
        rw [show phoneRule.maxLength = some 20 from rfl] at hmx
        injection hmx with hmx2
        subst hmx2
        decide
      · intro p hp
        decide
      · intro chk hchk
        rw [show phoneRule.additionalValidation = some phoneAdditional from rfl] at hchk
        injection hchk with hchk2
        subst hchk2
        intro e he
        rcases phoneAdditional_shapes _ e he with h | h <;> subst h <;> decide
    · intro mx hmx
      rw [show phoneRule.maxLength = some 20 from rfl] at hmx
      injection hmx with hmx2
      subst hmx2
      rw [hvf]
      apply runChecks_max_iff (cp ("phone")) phoneRule _ hne 20 rfl
      · intro mn hmn
        rw [show phoneRule.minLength = some 10 from rfl] at hmn
        injection hmn with hmn2
        subst hmn2
        decide
      · intro p hp
        decide
      · intro chk hchk
        rw [show phoneRule.additionalValidation = some phoneAdditional from rfl] at hchk
        injection hchk with hchk2
        subst hchk2
        intro e he
        rcases phoneAdditional_shapes _ e he with h | h <;> subst h <;> decide
  · cases hr
    subst h4
    constructor
    · intro mn hmn
      rw [show serviceRule.minLength = none from rfl] at hmn
      exact Option.noConfusion hmn
    · intro mx hmx
      rw [show serviceRule.maxLength = none from rfl] at hmx
      exact Option.noConfusion hmx
  · cases hr
    subst h5
    constructor
    · intro mn hmn
      rw [show messageRule.minLength = some 0 from rfl] at hmn
      injection hmn with hmn2
      subst hmn2
      rw [hvf]
      apply runChecks_min_iff (cp ("message")) messageRule _ hne 0 rfl
      · intro mx hmx
        rw [show messageRule.maxLength = some 1000 from rfl] at hmx
        injection hmx with hmx2
        subst hmx2
        decide
      · intro p hp
        rw [show messageRule.rulePattern = none from rfl] at hp
        exact Option.noConfusion hp
      · intro chk hchk
        rw [show messageRule.additionalValidation = some messageAdditional from rfl] at hchk
        injection hchk with hchk2
        subst hchk2
        intro e he
        rcases messageAdditional_shapes _ e he with h | h <;> subst h <;> decide
    · intro mx hmx
      rw [show messageRule.maxLength = some 1000 from rfl] at hmx
      injection hmx with hmx2
      subst hmx2
      rw [hvf]
      apply runChecks_max_iff (cp ("message")) messageRule _ hne 1000 rfl
      · intro mn hmn
        rw [show messageRule.minLength = some 0 from rfl] at hmn
        injection hmn with hmn2
        subst hmn2
        decide
      · intro p hp
        rw [show messageRule.rulePattern = none from rfl] at hp
        exact Option.noConfusion hp
      · intro chk hchk
        rw [show messageRule.additionalValidation = some messageAdditional from rfl] at hchk
        injection hchk with hchk2
        subst hchk2
        intro e he
        rcases messageAdditional_shapes _ e he with h | h <;> subst h <;> decide

/-- Witness for the amended C4: 51 astral code points in the `name`
field, 51 code points but 102 UTF-16 units, rejected by the
maximum-length check. -/
theorem c4_witness :
    validateField (cp ("name")) (List.replicate 51 65536) =
      ⟨false, some (cp ("Name must not exceed 100 characters")),
       List.replicate 51 65536⟩ := by
  have hminok : ∀ mn, nameRule.minLength = some mn →
      mn ≤ jsLen (applySanitize nameRule (List.replicate 51 65536)) := by
    intro mn hmn
    rw [show nameRule.minLength = some 2 from rfl] at hmn
    injection hmn with hmn2
    subst hmn2
    decide
  have h := ((c4_utf16_length_semantics (cp ("name")) nameRule rfl
      (List.replicate 51 65536) (by decide)).2 100 rfl).mpr ⟨hminok, by decide⟩
  exact h.trans (by decide)

/-- Claim C7: a message whose sanitized value is non-empty and within
1000 units is rejected with the too-many-links message when it contains
more than two URL matches, and otherwise with the prohibited-content
message when it contains a `<script` substring or a whole-word spam
keyword (`viagra`, `cialis`, `casino`, `lottery`). -/
theorem c7_message_spam_checks (v : List Nat)
    (h1 : messageSanitize v ≠ [])
    (h2 : jsLen (messageSanitize v) ≤ 1000) :
    (2 < countUrls (messageSanitize v) →
      validateField (cp ("message")) v =
        ⟨false, some (cp ("Message contains too many links")), messageSanitize v⟩) ∧
    (countUrls (messageSanitize v) ≤ 2 →
      (hasScriptIn (messageSanitize v) || hasSpamWord (messageSanitize v)) = true →
      validateField (cp ("message")) v =
        ⟨false, some (cp ("Message contains prohibited content")),
         messageSanitize v⟩) := by
  have hvf := validateField_eq_runChecks (cp ("message")) messageRule rfl v
  have hsan : applySanitize messageRule v = messageSanitize v := rfl
  rw [hsan] at hvf
  have hmin : ∀ mn, messageRule.minLength = some mn →
      mn ≤ jsLen (messageSanitize v) := by
    intro mn hmn
    simp only [messageRule, Option.some.injEq] at hmn
    omega
  have hmax : ∀ mx, messageRule.maxLength = some mx →
      jsLen (messageSanitize v) ≤ mx := by
    intro mx hmx
    simp only [messageRule, Option.some.injEq] at hmx
    omega
  have hpat : ∀ p, messageRule.rulePattern = some p →
      p (messageSanitize v) = true := by
    intro p hp
    simp only [messageRule] at hp
    exact Option.noConfusion hp
  have hbase : validateField (cp ("message")) v =
      checkCustom messageRule (messageSanitize v) := by
    rw [hvf, runChecks_nonempty _ _ _ h1, checkMin_skip _ _ _ hmin,
        checkMax_skip _ _ _ hmax, checkRulePattern_skip _ _ hpat]
  constructor
  · intro hurl
    have hchk : messageAdditional (messageSanitize v) =
        some (cp ("Message contains too many links")) := by
      unfold messageAdditional
      rw [if_pos hurl]
    rw [hbase, checkCustom_fire messageRule (messageSanitize v) messageAdditional rfl
      (by rw [hchk]; rfl), hchk]
  · intro hurl hsc
    have hchk : messageAdditional (messageSanitize v) =
        some (cp ("Message contains prohibited content")) := by
      unfold messageAdditional
      rw [if_neg (by omega)]
      by_cases hscript : hasScriptIn (messageSanitize v) = true
      · rw [if_pos hscript]
      · rw [Bool.not_eq_true] at hscript
        rcases Bool.or_eq_true_iff.mp hsc with hx | hx
        · rw [hscript] at hx
          exact Bool.noConfusion hx
        · rw [if_neg (by simp [hscript]), if_pos hx]
    rw [hbase, checkCustom_fire messageRule (messageSanitize v) messageAdditional rfl
      (by rw [hchk]; rfl), hchk]

/-- Witness for C7: three URLs in a message. -/
theorem c7_witness :
    validateField (cp ("message")) (cp ("http://a http://b http://c")) =
      ⟨false, some (cp ("Message contains too many links")),
       cp ("http://a http://b http://c")⟩ := by
  have h := (c7_message_spam_checks (cp ("http://a http://b http://c"))
    (by decide) (by decide)).1 (by decide)
  exact h.trans (by decide)

/-- Claim C10: on a record whose key set is exactly the rule-table
fields, `validateFieldsFast` returns `null` exactly when `validateForm`
reports the record valid; a non-null result names a field on which
`validateField` reports invalid, with that field's result spread in. -/
theorem c10_fast_refines_form (l : List (List Nat × List Nat))
    (hperm : List.Perm (l.map Prod.fst) FORM_FIELDS) :
    (validateFieldsFast l = none ↔ (validateForm (lookupEntry l)).valid = true) ∧
    (∀ r, validateFieldsFast l = some r →
      r.fieldName ∈ FORM_FIELDS ∧ r.valid = false ∧
      validateField r.fieldName (getOr (lookupEntry l) r.fieldName) =
        ⟨false, r.error, r.sanitizedValue⟩) := by
  have hnd : (l.map Prod.fst).Nodup := (List.Perm.nodup_iff hperm).mpr (by decide)
  have hget : ∀ p ∈ l, getOr (lookupEntry l) p.1 = p.2 := by
    intro p hp
    obtain ⟨f, v⟩ := p
    unfold getOr
    rw [lookupEntry_of_mem l f v hnd hp]
    rfl
  constructor
  · rw [validateFieldsFast_none_iff]
    have hvalid : (validateForm (lookupEntry l)).valid =
        FORM_FIELDS.all (fun f => (validateField f (getOr (lookupEntry l) f)).valid) :=
      (validateFormGo_spec (lookupEntry l) FORM_FIELDS).1
    rw [hvalid, List.all_eq_true]
    constructor
    · intro h f hf
      have hf2 : f ∈ l.map Prod.fst := hperm.mem_iff.mpr hf
      obtain ⟨p, hp, hfe⟩ := List.mem_map.mp hf2
      subst hfe
      rw [hget p hp]
      exact h p hp
    · intro h p hp
      have hf : p.1 ∈ FORM_FIELDS :=
        hperm.mem_iff.mp (List.mem_map.mpr ⟨p, hp, rfl⟩)
      have hv := h p.1 hf
      rw [hget p hp] at hv
      exact hv
  · intro r hr
    obtain ⟨hval, v, hmem, heq⟩ := validateFieldsFast_some l r hr
    have hf : r.fieldName ∈ FORM_FIELDS :=
      hperm.mem_iff.mp (List.mem_map.mpr ⟨(r.fieldName, v), hmem, rfl⟩)
    refine ⟨hf, hval, ?_⟩
    rw [show getOr (lookupEntry l) r.fieldName = v from hget (r.fieldName, v) hmem]
    exact heq

/-- Witness for C10 on a concrete five-field record. -/
theorem c10_witness :
    (validateFieldsFast
        [(cp ("name"), cp ("Jo")), (cp ("email"), cp ("jo@x.com")),
         (cp ("phone"), cp ("555-123-4567")), (cp ("service"), cp ("ac-repair")),
         (cp ("message"), cp (""))] = none ↔
      (validateForm (lookupEntry
        [(cp ("name"), cp ("Jo")), (cp ("email"), cp ("jo@x.com")),
         (cp ("phone"), cp ("555-123-4567")), (cp ("service"), cp ("ac-repair")),
         (cp ("message"), cp (""))])).valid = true) :=
  (c10_fast_refines_form _ (by decide)).1
